import Mathlib

/-!
Smart Translate extension: the background service worker and the content script.

A shallow embedding of `src/background/background.js` (the message listener,
`handleTranslation`, and the five provider adapters `translateWithOpenAI`,
`translateWithGemini`, `translateWithDeepSeek`, `translateWithDeepL`,
`translateWithCustom`) and of `src/content/content.js` (the placement of the
popup, the markup, and the controller that reacts to the pointer, the keyboard,
its timers and the replies of the worker).

Modelling decisions

* JavaScript values that reach the scripts from outside (stored settings, parsed
  response bodies) are JSON values, `JVal`. A number is kept as the text that
  `ToString` gives for it, the only two things the worker ever does with a
  number being a truthiness test and a string conversion.
* `await` is sequential composition. A promise that rejects and a statement that
  throws are both `Except.error`; every value thrown in the worker is an `Error`
  object (made by `new Error`, raised by the engine as a `TypeError`, or the
  rejection of `fetch`, `response.json()`, `response.text()` or
  `chrome.storage.sync.get`), so a thrown value is a `JsError` carrying its
  `message` string.
* The network is an oracle `Net`: given the requests already issued during the
  call and the next request, it answers with a response or a transport error.
  Each adapter returns a `Run`: its outcome and the list of requests it issued,
  in order.
* `JSON.stringify` and `URLSearchParams.toString` are not modelled: a request
  body is kept as the value that is serialised (`Body`).
* Lengths and offsets of strings count characters; JavaScript counts UTF-16 code
  units, and the two agree on text of the Basic Multilingual Plane.
* Pixel coordinates are rational numbers.
* The content script is a state machine over `PageState`; see the section on the
  controller.
-/

namespace SmartTranslate

/-! ## JavaScript values -/

/-- JSON values as seen from JavaScript, with `undefined` for a missing property.
A number carries its `ToString` text (`"0.3"`, `"2000"`). An object is the list of
its own properties, keys distinct. -/
inductive JVal where
  | undefined
  | null
  | bool (b : Bool)
  | num (text : String)
  | str (s : String)
  | arr (items : List JVal)
  | obj (fields : List (String × JVal))

namespace JVal

/-- Test `v === undefined || v === null`. -/
def isNullish : JVal → Bool
  | undefined => true
  | null => true
  | _ => false

/-- ToBoolean: `undefined`, `null`, `false`, `0`, `NaN` and `''` are falsy. -/
def truthy : JVal → Bool
  | undefined => false
  | null => false
  | bool b => b
  | num text => !(text == "0" || text == "NaN")
  | str s => !(s == "")
  | arr _ => true
  | obj _ => true

/-- The operator `a || b`. -/
def or (a b : JVal) : JVal :=
  if a.truthy then a else b

/-- Strict equality `v === s` with a string literal `s`. -/
def strictEq (v : JVal) (s : String) : Bool :=
  match v with
  | str t => t == s
  | _ => false

end JVal

mutual
/-- ToString, as applied by template literals and by `new Error(v)`. An array
is joined with commas, `null` and `undefined` elements giving the empty string. -/
def toStr : JVal → String
  | .undefined => "undefined"
  | .null => "null"
  | .bool true => "true"
  | .bool false => "false"
  | .num text => text
  | .str s => s
  | .arr items => joinItems items
  | .obj _ => "[object Object]"
termination_by structural v => v
/-- The method `Array.prototype.join` with the default separator. -/
def joinItems : List JVal → String
  | [] => ""
  | [x] => if x.isNullish then "" else toStr x
  | x :: y :: rest => (if x.isNullish then "" else toStr x) ++ "," ++ joinItems (y :: rest)
termination_by structural items => items
end

/-- A thrown `Error` object. -/
structure JsError where
  message : String
  deriving DecidableEq, Repr

/-- The constructor call `new Error(v)`: the message is `ToString(v)`. -/
def newError (v : JVal) : JsError :=
  ⟨toStr v⟩

/-- The expression `error?.message || dflt` for a thrown `Error`. -/
def JsError.messageOr (e : JsError) (dflt : String) : String :=
  if e.message = "" then dflt else e.message

/-! ## Strings -/

/-- White space and line terminators, the characters `String.prototype.trim` strips. -/
def isTrimChar (c : Char) : Bool :=
  let n := c.toNat
  (decide (9 ≤ n) && decide (n ≤ 13)) || n == 32 || n == 160 || n == 5760 ||
    (decide (8192 ≤ n) && decide (n ≤ 8202)) || n == 8232 || n == 8233 || n == 8239 ||
    n == 8287 || n == 12288 || n == 65279

/-- The method `String.prototype.trim`. -/
def trim (s : String) : String :=
  String.mk ((s.data.dropWhile isTrimChar).reverse.dropWhile isTrimChar).reverse

/-- The method `String.prototype.toUpperCase`, on ASCII letters (language codes);
other characters are left as they are. -/
def toUpperCase (s : String) : String :=
  String.mk (s.data.map Char.toUpper)

/-- The method `String.prototype.toLowerCase`, on ASCII letters. -/
def toLowerCase (s : String) : String :=
  String.mk (s.data.map Char.toLower)

/-- The call `s.substring(0, n)`, counted in characters. -/
def substring0 (s : String) (n : Nat) : String :=
  String.mk (s.data.take n)

/-! ## Property access -/

/-- Own property `k` of an object literal. -/
def lookup (k : String) : List (String × JVal) → JVal
  | [] => .undefined
  | (k2, v) :: rest => if k2 = k then v else lookup k rest

/-- The value of `v.k` for a value that is not nullish. None of the keys the worker
reads is a member of a built-in prototype, so only objects have them. -/
def JVal.prop (v : JVal) (k : String) : JVal :=
  match v with
  | .obj fields => lookup k fields
  | _ => .undefined

/-- The value of `v[0]` for a value that is not nullish. -/
def JVal.item0 (v : JVal) : JVal :=
  match v with
  | .arr (x :: _) => x
  | .str s =>
    match s.data with
    | c :: _ => .str (String.mk [c])
    | [] => .undefined
  | .obj fields => lookup "0" fields
  | _ => .undefined

/-- The TypeError of V8 for a property read on `undefined` or `null`. -/
def cannotRead (v : JVal) (k : String) : JsError :=
  ⟨"Cannot read properties of " ++ toStr v ++ " (reading '" ++ k ++ "')"⟩

/-- Plain member access `v.k`: throws on `undefined` and `null`. -/
def getProp (v : JVal) (k : String) : Except JsError JVal :=
  if v.isNullish then .error (cannotRead v k) else .ok (v.prop k)

/-- Plain index access `v[0]`: throws on `undefined` and `null`. -/
def getItem0 (v : JVal) : Except JsError JVal :=
  if v.isNullish then .error (cannotRead v "0") else .ok v.item0

/-- Optional member access `v?.k`. -/
def optProp (v : JVal) (k : String) : JVal :=
  if v.isNullish then .undefined else v.prop k

/-- Optional index access `v?.[0]`. -/
def optItem0 (v : JVal) : JVal :=
  if v.isNullish then .undefined else v.item0

/-- The TypeError for calling something that is not a function. -/
def notAFunction (expr : String) : JsError :=
  ⟨expr ++ " is not a function"⟩

/-- The call `v.trim()` on a value that is not nullish; `expr` is the callee as written. -/
def callTrim (expr : String) (v : JVal) : Except JsError JVal :=
  match v with
  | .str s => .ok (.str (trim s))
  | _ => .error (notAFunction expr)

/-- The optional call `v?.trim()`. -/
def optCallTrim (expr : String) (v : JVal) : Except JsError JVal :=
  if v.isNullish then .ok .undefined else callTrim expr v

/-- The optional call `v?.toLowerCase()`. -/
def optCallToLowerCase (expr : String) (v : JVal) : Except JsError JVal :=
  if v.isNullish then .ok .undefined
  else
    match v with
    | .str s => .ok (.str (toLowerCase s))
    | _ => .error (notAFunction expr)

/-! ## The network -/

/-- What is serialised into a request body. -/
inductive Body where
  | json (v : JVal)
  | form (params : List (String × String))

/-- The arguments of one `fetch` call. -/
structure Request where
  url : String
  method : String
  headers : List (String × String)
  body : Body

/-- A response: its status, and what `response.json()` and `response.text()` settle to. -/
structure Response where
  status : Nat
  json : Except JsError JVal
  text : Except JsError String

/-- The getter `response.ok`: the status is in the range 200 to 299. -/
def Response.ok (r : Response) : Bool :=
  decide (200 ≤ r.status) && decide (r.status ≤ 299)

/-- The network: the requests issued so far in this call, then the next one. -/
abbrev Net := List Request → Request → Except JsError Response

/-- An asynchronous computation that has settled: outcome and requests issued. -/
structure Run (α : Type) where
  outcome : Except JsError α
  requests : List Request

/-- The expression `await response.json().catch(() => (\x7b\x7d))`. -/
def errorDataOf (r : Response) : JVal :=
  match r.json with
  | .ok v => v
  | .error _ => .obj []

/-- What an adapter resolves to. -/
structure AdapterResult where
  translation : JVal
  detectedLang : JVal

/-! ## Language helpers -/

/-- The table `languageNames`. -/
def languageNames : List (String × String) :=
  [("auto", "auto-detect"), ("en", "English"), ("id", "Indonesian"), ("ja", "Japanese"),
   ("ko", "Korean"), ("zh", "Chinese"), ("es", "Spanish"), ("fr", "French"),
   ("de", "German"), ("pt", "Portuguese"), ("ru", "Russian"), ("ar", "Arabic"),
   ("hi", "Hindi"), ("th", "Thai"), ("vi", "Vietnamese"), ("nl", "Dutch"),
   ("pl", "Polish"), ("tr", "Turkish"), ("it", "Italian")]

/-- The text that a template literal gives for the member `key` that an object
literal inherits from `Object.prototype`, if there is one: the source text V8
prints for a built-in function, and `[object Object]` for `__proto__`, which is
`Object.prototype` itself. -/
def objectPrototypeText (key : String) : Option String :=
  if key = "constructor" then some "function Object() \x7b [native code] \x7d"
  else if key = "__proto__" then some "[object Object]"
  else if key ∈ ["__defineGetter__", "__defineSetter__", "hasOwnProperty", "__lookupGetter__",
      "__lookupSetter__", "isPrototypeOf", "propertyIsEnumerable", "toString", "valueOf",
      "toLocaleString"] then
    some ("function " ++ key ++ "() \x7b [native code] \x7d")
  else none

/-- The function `getLanguageName`: `languageNames[code] || code`, as the text its
result gives in the prompt. The lookup finds the entries of the table and, for a
code that names one, the members inherited from `Object.prototype`, all truthy. -/
def getLanguageName (code : String) : String :=
  match languageNames.lookup code with
  | some name => name
  | none =>
    match objectPrototypeText code with
    | some text => text
    | none => code

/-- The constant `sourceStr` of the three LLM adapters. -/
def sourceStrOf (sourceLang : String) : String :=
  if sourceLang = "auto" then "the source language (auto-detect it)" else getLanguageName sourceLang

/-! ## Chat-completion adapters: OpenAI and DeepSeek -/

/-- The system message of the OpenAI and DeepSeek adapters. -/
def chatSystemPrompt (sourceStr targetStr : String) : String :=
  "You are a translator. Translate the given text from " ++ sourceStr ++ " to " ++ targetStr ++
    ". Only respond with the translation, nothing else. Preserve the original formatting and line breaks."

/-- The request body shared in shape by the OpenAI and DeepSeek adapters. -/
def chatBody (model text sourceLang targetLang : String) : Body :=
  .json (.obj [
    ("model", .str model),
    ("messages", .arr [
      .obj [("role", .str "system"),
            ("content", .str (chatSystemPrompt (sourceStrOf sourceLang) (getLanguageName targetLang)))],
      .obj [("role", .str "user"), ("content", .str text)]]),
    ("temperature", .num "0.3"),
    ("max_tokens", .num "2000")])

/-- The statement `throw new Error(errorData.error?.message || fallback)` after
`errorData = await response.json().catch(...)`: the error that ends up thrown, a
TypeError when `errorData` is `null`. -/
def thrownOnStatus (backend : String) (response : Response) : JsError :=
  match getProp (errorDataOf response) "error" with
  | .error typeError => typeError
  | .ok error =>
    newError ((optProp error "message").or
      (.str (backend ++ " API error: " ++ toString response.status)))

/-- The expression `data.choices[0]?.message?.content?.trim() || ''`. -/
def chatTranslation (data : JVal) : Except JsError JVal := do
  let choices ← getProp data "choices"
  let first ← getItem0 choices
  let trimmed ← optCallTrim "data.choices[0]?.message?.content?.trim"
    (optProp (optProp first "message") "content")
  pure (trimmed.or (.str ""))

/-- The part of a chat adapter after a response with a success status. -/
def chatResult (response : Response) (sourceLang : String) : Except JsError AdapterResult := do
  let data ← response.json
  let translation ← chatTranslation data
  pure { translation := translation, detectedLang := .str sourceLang }

/-- The request of `translateWithOpenAI`. -/
def openAIRequest (text sourceLang targetLang : String) (apiKey : JVal) : Request :=
  { url := "https://api.openai.com/v1/chat/completions"
    method := "POST"
    headers := [("Content-Type", "application/json"), ("Authorization", "Bearer " ++ toStr apiKey)]
    body := chatBody "gpt-4o-mini" text sourceLang targetLang }

/-- The adapter `translateWithOpenAI`. -/
def translateWithOpenAI (net : Net) (text sourceLang targetLang : String) (apiKey : JVal) :
    Run AdapterResult :=
  let request := openAIRequest text sourceLang targetLang apiKey
  { requests := [request]
    outcome :=
      match net [] request with
      | .error e => .error e
      | .ok response =>
        if response.ok then chatResult response sourceLang
        else .error (thrownOnStatus "OpenAI" response) }

/-- The request of `translateWithDeepSeek`. -/
def deepSeekRequest (text sourceLang targetLang : String) (apiKey : JVal) : Request :=
  { url := "https://api.deepseek.com/chat/completions"
    method := "POST"
    headers := [("Content-Type", "application/json"), ("Authorization", "Bearer " ++ toStr apiKey)]
    body := chatBody "deepseek-chat" text sourceLang targetLang }

/-- The adapter `translateWithDeepSeek`. -/
def translateWithDeepSeek (net : Net) (text sourceLang targetLang : String) (apiKey : JVal) :
    Run AdapterResult :=
  let request := deepSeekRequest text sourceLang targetLang apiKey
  { requests := [request]
    outcome :=
      match net [] request with
      | .error e => .error e
      | .ok response =>
        if response.ok then chatResult response sourceLang
        else .error (thrownOnStatus "DeepSeek" response) }

/-! ## Gemini -/

/-- The single text part sent to Gemini. -/
def geminiPrompt (sourceStr targetStr text : String) : String :=
  "Translate the following text from " ++ sourceStr ++ " to " ++ targetStr ++
    ". Only respond with the translation, nothing else. Preserve the original formatting and line breaks.\n\nText to translate:\n" ++
    text

/-- The request of `translateWithGemini`. -/
def geminiRequest (text sourceLang targetLang : String) (apiKey : JVal) : Request :=
  { url := "https://generativelanguage.googleapis.com/v1beta/models/gemini-2.0-flash:generateContent?key=" ++
      toStr apiKey
    method := "POST"
    headers := [("Content-Type", "application/json")]
    body := .json (.obj [
      ("contents", .arr [.obj [("parts", .arr [.obj [("text",
        .str (geminiPrompt (sourceStrOf sourceLang) (getLanguageName targetLang) text))]])]]),
      ("generationConfig", .obj [("temperature", .num "0.3"), ("maxOutputTokens", .num "2000")])]) }

/-- The expression `data.candidates?.[0]?.content?.parts?.[0]?.text?.trim() || ''`. -/
def geminiTranslation (data : JVal) : Except JsError JVal := do
  let candidates ← getProp data "candidates"
  let trimmed ← optCallTrim "data.candidates?.[0]?.content?.parts?.[0]?.text?.trim"
    (optProp (optItem0 (optProp (optProp (optItem0 candidates) "content") "parts")) "text")
  pure (trimmed.or (.str ""))

/-- The part of `translateWithGemini` after a response with a success status. -/
def geminiResult (response : Response) (sourceLang : String) : Except JsError AdapterResult := do
  let data ← response.json
  let translation ← geminiTranslation data
  pure { translation := translation, detectedLang := .str sourceLang }

/-- The adapter `translateWithGemini`. -/
def translateWithGemini (net : Net) (text sourceLang targetLang : String) (apiKey : JVal) :
    Run AdapterResult :=
  let request := geminiRequest text sourceLang targetLang apiKey
  { requests := [request]
    outcome :=
      match net [] request with
      | .error e => .error e
      | .ok response =>
        if response.ok then geminiResult response sourceLang
        else .error (thrownOnStatus "Gemini" response) }

/-! ## DeepL -/

/-- The two endpoints `baseUrls`, the free one first. -/
def deeplBaseUrls : List String :=
  ["https://api-free.deepl.com/v2/translate", "https://api.deepl.com/v2/translate"]

/-- The constant `deeplSourceLang`: `null` for auto-detection. -/
def deeplSourceLangOf (sourceLang : String) : JVal :=
  if sourceLang = "auto" then .null else .str (toUpperCase sourceLang)

/-- The `URLSearchParams` of one attempt: `source_lang` is appended only when
`deeplSourceLang` is truthy. -/
def deeplParams (text sourceLang targetLang : String) : List (String × String) :=
  [("text", text), ("target_lang", toUpperCase targetLang)] ++
    (if (deeplSourceLangOf sourceLang).truthy then
      [("source_lang", toStr (deeplSourceLangOf sourceLang))]
    else [])

/-- The request sent to one DeepL endpoint. -/
def deeplRequest (baseUrl text sourceLang targetLang : String) (apiKey : JVal) : Request :=
  { url := baseUrl
    method := "POST"
    headers := [("Content-Type", "application/x-www-form-urlencoded"),
                ("Authorization", "DeepL-Auth-Key " ++ toStr apiKey)]
    body := .form (deeplParams text sourceLang targetLang) }

/-- The object returned by `translateWithDeepL` from the parsed body of a response
with a success status. -/
def deeplExtract (data : JVal) (sourceLang : String) : Except JsError AdapterResult := do
  let translations ← getProp data "translations"
  let translation := (optProp (optItem0 translations) "text").or (.str "")
  let detected ← optCallToLowerCase
    "data.translations?.[0]?.detected_source_language?.toLowerCase"
    (optProp (optItem0 translations) "detected_source_language")
  pure { translation := translation, detectedLang := detected.or (.str sourceLang) }

/-- The error stored in `lastError` on a response without a success status; a
TypeError raised there is caught by the same `catch` and stored instead. -/
def deeplStatusError (response : Response) : JsError :=
  match getProp (errorDataOf response) "message" with
  | .error typeError => typeError
  | .ok message =>
    newError (message.or (.str ("DeepL API error: " ++ toString response.status)))

/-- One iteration of the loop of `translateWithDeepL`, given what `fetch` settled
to: `ok` is the `return`, `error e` leaves `lastError = e` and goes on to the
next endpoint (by `continue` or through the `catch`). -/
def deeplAttempt (fetched : Except JsError Response) (sourceLang : String) :
    Except JsError AdapterResult :=
  match fetched with
  | .error e => .error e
  | .ok response =>
    if response.ok then
      match response.json with
      | .error e => .error e
      | .ok data => deeplExtract data sourceLang
    else .error (deeplStatusError response)

/-- The loop `for (const baseUrl of baseUrls)` with its state `lastError` and the
requests issued so far, followed by the final `throw`. -/
def deeplLoop (net : Net) (text sourceLang targetLang : String) (apiKey : JVal) :
    List String → Option JsError → List Request → Run AdapterResult
  | [], lastError, issued =>
    { outcome := .error (lastError.getD ⟨"DeepL translation failed"⟩), requests := issued }
  | baseUrl :: rest, _, issued =>
    let request := deeplRequest baseUrl text sourceLang targetLang apiKey
    match deeplAttempt (net issued request) sourceLang with
    | .ok result => { outcome := .ok result, requests := issued ++ [request] }
    | .error e => deeplLoop net text sourceLang targetLang apiKey rest (some e) (issued ++ [request])

/-- The adapter `translateWithDeepL`. -/
def translateWithDeepL (net : Net) (text sourceLang targetLang : String) (apiKey : JVal) :
    Run AdapterResult :=
  deeplLoop net text sourceLang targetLang apiKey deeplBaseUrls none []

/-! ## Custom endpoint -/

/-- The request of `translateWithCustom`. -/
def customRequest (text sourceLang targetLang : String) (apiKey endpoint : JVal) : Request :=
  { url := toStr endpoint
    method := "POST"
    headers := [("Content-Type", "application/json"), ("Authorization", "Bearer " ++ toStr apiKey)]
    body := .json (.obj [
      ("text", .str text), ("source_lang", .str sourceLang), ("target_lang", .str targetLang),
      ("q", .str text), ("source", .str sourceLang), ("target", .str targetLang)]) }

/-- The constant `translation` of `translateWithCustom`: the chain
`data.translation || data.translatedText || ... || ''`, before `.trim()`. -/
def customTranslation (data : JVal) : Except JsError JVal := do
  let c1 ← getProp data "translation"
  let c2 ← getProp data "translatedText"
  let c3 ← getProp data "translated_text"
  let c4 ← getProp data "result"
  let c5 ← getProp data "text"
  let inner ← getProp data "data"
  let c6 := optProp inner "translation"
  let choices ← getProp data "choices"
  let c7 := optProp (optProp (optItem0 choices) "message") "content"
  pure (((((((c1.or c2).or c3).or c4).or c5).or c6).or c7).or (.str ""))

/-- The object returned by `translateWithCustom` from a parsed body. -/
def customExtract (data : JVal) (sourceLang : String) : Except JsError AdapterResult := do
  let translation ← customTranslation data
  let trimmed ← callTrim "translation.trim" translation
  let detected1 ← getProp data "detected_lang"
  let detected2 ← getProp data "detectedLanguage"
  pure { translation := trimmed, detectedLang := (detected1.or detected2).or (.str sourceLang) }

/-- The error thrown by `translateWithCustom` on a response without a success status. -/
def customStatusError (response : Response) : JsError :=
  match response.text with
  | .error e => e
  | .ok errorText =>
    ⟨"Custom API error: " ++ toString response.status ++ " - " ++ substring0 errorText 100⟩

/-- The adapter `translateWithCustom`. -/
def translateWithCustom (net : Net) (text sourceLang targetLang : String)
    (apiKey endpoint : JVal) : Run AdapterResult :=
  if !endpoint.truthy then
    { outcome := .error ⟨"Custom API endpoint not configured"⟩, requests := [] }
  else
    let request := customRequest text sourceLang targetLang apiKey endpoint
    { requests := [request]
      outcome :=
        match net [] request with
        | .error e => .error e
        | .ok response =>
          if response.ok then
            match response.json with
            | .error e => .error e
            | .ok data => customExtract data sourceLang
          else .error (customStatusError response) }

/-! ## The dispatcher -/

/-- What `chrome.storage.sync.get` resolves to; a key that is not stored is `undefined`. -/
structure Settings where
  service : JVal
  customEndpoint : JVal
  apiKey : JVal
  smartTranslate : JVal

/-- The fields of a `TRANSLATE` message that `handleTranslation` destructures. -/
structure TranslateMessage where
  text : String
  sourceLang : String
  targetLang : String

/-- The response sent back across the message channel. -/
inductive TranslationResponse where
  | success (translation : JVal) (detectedLang : JVal)
  | failure (error : String)

/-- The statement `switch (service)`: the adapter call of the matching `case`, or
`none` for the `default` branch. -/
def dispatch (net : Net) (msg : TranslateMessage) (settings : Settings) (service : JVal) :
    Option (Run AdapterResult) :=
  if service.strictEq "openai" then
    some (translateWithOpenAI net msg.text msg.sourceLang msg.targetLang settings.apiKey)
  else if service.strictEq "gemini" then
    some (translateWithGemini net msg.text msg.sourceLang msg.targetLang settings.apiKey)
  else if service.strictEq "deepseek" then
    some (translateWithDeepSeek net msg.text msg.sourceLang msg.targetLang settings.apiKey)
  else if service.strictEq "deepl" then
    some (translateWithDeepL net msg.text msg.sourceLang msg.targetLang settings.apiKey)
  else if service.strictEq "custom" then
    some (translateWithCustom net msg.text msg.sourceLang msg.targetLang settings.apiKey
      settings.customEndpoint)
  else none

/-- The constant `service`: `settings.service || 'openai'`. -/
def serviceOf (settings : Settings) : JVal :=
  settings.service.or (.str "openai")

/-- The `try` block of `handleTranslation`; `storage` is what the settings read
settled to. -/
def handleTranslationTry (storage : Except JsError Settings) (net : Net)
    (msg : TranslateMessage) : Run TranslationResponse :=
  match storage with
  | .error e => { outcome := .error e, requests := [] }
  | .ok settings =>
    if !settings.apiKey.truthy then
      { outcome := .ok (.failure "API key not configured. Please set it in extension settings.")
        requests := [] }
    else
      match dispatch net msg settings (serviceOf settings) with
      | none =>
        { outcome := .ok (.failure ("Unknown service: " ++ toStr (serviceOf settings)))
          requests := [] }
      | some run =>
        match run.outcome with
        | .error e => { outcome := .error e, requests := run.requests }
        | .ok result =>
          if !result.translation.truthy then
            { outcome := .ok (.failure "Empty translation received"), requests := run.requests }
          else
            { outcome := .ok (.success result.translation result.detectedLang)
              requests := run.requests }

/-- The function `handleTranslation`: the `try` block and its `catch`. -/
def handleTranslation (storage : Except JsError Settings) (net : Net)
    (msg : TranslateMessage) : Run TranslationResponse :=
  let attempt := handleTranslationTry storage net msg
  match attempt.outcome with
  | .error error =>
    { outcome := .ok (.failure (error.messageOr "Translation failed"))
      requests := attempt.requests }
  | .ok result => { outcome := .ok result, requests := attempt.requests }

/-- The `chrome.runtime.onMessage` listener: what is passed to `sendResponse`, if
anything, for a message of type `type`. -/
def onMessage (storage : Except JsError Settings) (net : Net) (type : String)
    (msg : TranslateMessage) : Option TranslationResponse :=
  if type = "TRANSLATE" then
    match (handleTranslation storage net msg).outcome with
    | .ok result => some result
    | .error error => some (.failure (error.messageOr "Unknown error occurred"))
  else none

/-- The request to the first of `baseUrls`, the free endpoint. -/
def deeplPrimary (text sourceLang targetLang : String) (apiKey : JVal) : Request :=
  deeplRequest "https://api-free.deepl.com/v2/translate" text sourceLang targetLang apiKey

/-- The request to the second of `baseUrls`, the pro endpoint. -/
def deeplSecondary (text sourceLang targetLang : String) (apiKey : JVal) : Request :=
  deeplRequest "https://api.deepl.com/v2/translate" text sourceLang targetLang apiKey

/-! ## The content script: placement of the popup -/

/-- A `DOMRect` in viewport coordinates, in CSS pixels. -/
structure Rect where
  top : ℚ
  bottom : ℚ
  left : ℚ
  right : ℚ

/-- The window metrics read by `showTranslationPopup`. -/
structure Viewport where
  innerWidth : ℚ
  innerHeight : ℚ
  scrollX : ℚ
  scrollY : ℚ

/-- The method `classList.add`. -/
def classListAdd (classes : List String) (name : String) : List String :=
  if name ∈ classes then classes else classes ++ [name]

/-- The method `classList.remove`. -/
def classListRemove (classes : List String) (name : String) : List String :=
  classes.filter (fun c => c != name)

/-- The expression `measured || dflt` on a number: zero is falsy. -/
def orDefault (measured dflt : ℚ) : ℚ :=
  if measured = 0 then dflt else measured

/-- The vertical part of the placement in `showTranslationPopup`: the class list,
`style.transform` and `popupY`, from the class list so far, the selection
rectangle, the window metrics and `popupHeight`. -/
def placeVertical (classes : List String) (rect : Rect) (view : Viewport) (popupHeight : ℚ) :
    List String × String × ℚ :=
  let spaceAbove := rect.top
  let spaceBelow := view.innerHeight - rect.bottom
  if spaceAbove ≥ popupHeight + 15 then
    (classListRemove classes "arrow-top", "translateY(-100%)", rect.top + view.scrollY - 10)
  else if spaceBelow ≥ popupHeight + 15 then
    (classListAdd classes "arrow-top", "translateY(0)", rect.bottom + view.scrollY + 10)
  else
    (classes, "translateY(-100%)",
      max (popupHeight + 10 + view.scrollY) (rect.top + view.scrollY - 10))

/-- The horizontal part of the placement: the class list and `popupX`. -/
def placeHorizontal (classes : List String) (rect : Rect) (view : Viewport) (popupWidth : ℚ) :
    List String × ℚ :=
  let popupX := rect.left + view.scrollX
  let afterRight : List String × ℚ :=
    if popupX + popupWidth > view.innerWidth - 10 + view.scrollX then
      (classListAdd classes "arrow-right", view.innerWidth - popupWidth - 10 + view.scrollX)
    else (classes, popupX)
  if afterRight.2 < 10 then (classListRemove afterRight.1 "arrow-right", 10)
  else afterRight

/-- The class list and the inline style of the popup once it is placed; `left` and
`top` are the numbers written into `style.left` and `style.top`, in pixels. -/
structure PopupStyle where
  classes : List String
  transform : String
  left : ℚ
  top : ℚ

/-- The placement of `showTranslationPopup`, from the class list of the fresh
popup, the selection rectangle, the window metrics and the measured size of the
popup (`popupRect.width`, `popupRect.height`). -/
def positionPopup (classes : List String) (rect : Rect) (view : Viewport)
    (measuredWidth measuredHeight : ℚ) : PopupStyle :=
  let popupHeight := orDefault measuredHeight 80
  let popupWidth := orDefault measuredWidth 300
  let vertical := placeVertical classes rect view popupHeight
  let horizontal := placeHorizontal vertical.1 rect view popupWidth
  { classes := horizontal.1, transform := vertical.2.1, left := horizontal.2, top := vertical.2.2 }

/-- The class list of a fresh popup: `ai-translator-popup`, and `dark` in dark mode. -/
def popupClasses (isDark : Bool) : List String :=
  if isDark then ["ai-translator-popup", "dark"] else ["ai-translator-popup"]

/-! ## The content script: markup -/

/-- The serialisation of one character of a text node: `&`, `<`, `>` and the
no-break space are written as character references. -/
def escapeChar (c : Char) : List Char :=
  if c = '&' then ['&', 'a', 'm', 'p', ';']
  else if c = '<' then ['&', 'l', 't', ';']
  else if c = '>' then ['&', 'g', 't', ';']
  else if c.toNat = 160 then ['&', 'n', 'b', 's', 'p', ';']
  else [c]

/-- The serialisation of the characters of a text node. -/
def escapeChars : List Char → List Char
  | [] => []
  | c :: rest => escapeChar c ++ escapeChars rest

/-- The function `escapeHtml`: the text is stored as the `textContent` of a fresh
`div` and read back as its `innerHTML`. -/
def escapeHtml (text : String) : String :=
  String.mk (escapeChars text.data)

/-- The table `langNames` of `createPopupContent`. -/
def langNames : List (String × String) :=
  [("auto", "Auto"), ("en", "EN"), ("id", "ID"), ("ja", "JA"), ("ko", "KO"), ("zh", "ZH"),
   ("es", "ES"), ("fr", "FR"), ("de", "DE"), ("pt", "PT"), ("ru", "RU"), ("ar", "AR"),
   ("hi", "HI"), ("th", "TH"), ("vi", "VI"), ("nl", "NL"), ("pl", "PL"), ("tr", "TR"),
   ("it", "IT")]

/-- The interpolated expression `langNames[lang] || lang`, as the text it puts
into the template. The lookup finds the entries of the table and, for a key that
names one, the members inherited from `Object.prototype`, all truthy. -/
def langLabel (lang : JVal) : String :=
  match langNames.lookup (toStr lang) with
  | some name => name
  | none =>
    match objectPrototypeText (toStr lang) with
    | some text => text
    | none => toStr lang

/-- The argument object of `createPopupContent`; a property that the caller leaves
out is `none` (`false` for `loading`). -/
structure PopupArgs where
  loading : Bool
  translation : Option String
  error : Option String
  sourceLang : JVal
  targetLang : JVal

/-- The constant `headerHtml` of `createPopupContent`. -/
def headerHtml (sourceLang targetLang : JVal) : String :=
  "\n" ++
  "      <div class=\"ait-header\">\n" ++
  "        <div class=\"ait-lang-info\">\n" ++
  "          <span>" ++ langLabel sourceLang ++ "</span>\n" ++
  "          <span class=\"ait-lang-arrow\">→</span>\n" ++
  "          <span>" ++ langLabel targetLang ++ "</span>\n" ++
  "        </div>\n" ++
  "        <button class=\"ait-close-btn\" title=\"Close\">\n" ++
  "          <svg viewBox=\"0 0 24 24\" fill=\"none\" stroke=\"currentColor\" stroke-width=\"2\">\n" ++
  "            <path d=\"M18 6L6 18M6 6l12 12\"/>\n" ++
  "          </svg>\n" ++
  "        </button>\n" ++
  "      </div>\n" ++
  "    "

/-- The value of `contentHtml` in the `loading` branch. -/
def loadingHtml : String :=
  "\n" ++
  "        <div class=\"ait-content\">\n" ++
  "          <div class=\"ait-loading\">\n" ++
  "            <div class=\"ait-spinner\"></div>\n" ++
  "            <span>Translating...</span>\n" ++
  "          </div>\n" ++
  "        </div>\n" ++
  "      "

/-- The value of `contentHtml` in the `error` branch. -/
def errorHtml (error : String) : String :=
  "\n" ++
  "        <div class=\"ait-content\">\n" ++
  "          <div class=\"ait-error\">\n" ++
  "            <span class=\"ait-error-icon\">⚠️</span>\n" ++
  "            <span>" ++ escapeHtml error ++ "</span>\n" ++
  "          </div>\n" ++
  "        </div>\n" ++
  "      "

/-- The value of `contentHtml` in the last branch, the translation with its copy button. -/
def translationHtml (translation : String) : String :=
  "\n" ++
  "        <div class=\"ait-content\">\n" ++
  "          <div class=\"ait-translation\">" ++ escapeHtml translation ++ "</div>\n" ++
  "        </div>\n" ++
  "        <div class=\"ait-footer\">\n" ++
  "          <button class=\"ait-copy-btn\" title=\"Copy translation\">\n" ++
  "            <svg viewBox=\"0 0 24 24\" fill=\"none\" stroke=\"currentColor\" stroke-width=\"2\">\n" ++
  "              <rect x=\"9\" y=\"9\" width=\"13\" height=\"13\" rx=\"2\" ry=\"2\"/>\n" ++
  "              <path d=\"M5 15H4a2 2 0 0 1-2-2V4a2 2 0 0 1 2-2h9a2 2 0 0 1 2 2v1\"/>\n" ++
  "            </svg>\n" ++
  "            Copy\n" ++
  "          </button>\n" ++
  "        </div>\n" ++
  "      "

/-- The function `createPopupContent`. A missing `translation` is written as the
empty text, as `textContent = undefined` does. -/
def createPopupContent (args : PopupArgs) : String :=
  headerHtml args.sourceLang args.targetLang ++
    (if args.loading then loadingHtml
     else
       match args.error with
       | some error =>
         if error = "" then translationHtml (args.translation.getD "") else errorHtml error
       | none => translationHtml (args.translation.getD ""))

/-- The markup written into the modal by `showConfirmationModal`. -/
def modalHtml (originalText translation : String) : String :=
  "\n" ++
  "      <div class=\"ait-modal-header\">\n" ++
  "        <div class=\"ait-modal-icon\">🌐</div>\n" ++
  "        <h3 class=\"ait-modal-title\">Replace with Translation?</h3>\n" ++
  "      </div>\n" ++
  "      <div class=\"ait-modal-body\">\n" ++
  "        <div class=\"ait-modal-label\">Original Text</div>\n" ++
  "        <div class=\"ait-modal-text\">" ++ escapeHtml originalText ++ "</div>\n" ++
  "        <div class=\"ait-modal-label\">Translation</div>\n" ++
  "        <div class=\"ait-modal-text translation\">" ++ escapeHtml translation ++ "</div>\n" ++
  "      </div>\n" ++
  "      <div class=\"ait-modal-footer\">\n" ++
  "        <button class=\"ait-modal-btn cancel\">Cancel</button>\n" ++
  "        <button class=\"ait-modal-btn confirm\">Replace</button>\n" ++
  "      </div>\n" ++
  "    "

/-- Whether `needle` starts the list of characters. -/
def startsWith : List Char → List Char → Bool
  | _, [] => true
  | [], _ :: _ => false
  | c :: cs, p :: ps => c == p && startsWith cs ps

/-- Whether `needle` occurs in the list of characters. -/
def includesChars : List Char → List Char → Bool
  | [], needle => needle.isEmpty
  | c :: cs, needle => startsWith (c :: cs) needle || includesChars cs needle

/-- The method `String.prototype.includes`. -/
def includes (s needle : String) : Bool :=
  includesChars s.data needle.data

/-! ## The content script: page, DOM nodes and controller state

Each listener and each continuation after an `await` runs to completion, so the
controller is a state machine: `step` applies one event to the state. The
events are the three DOM events the script listens to, the clicks on the
buttons it creates, the passing of time, the firing of a timer that is due, the
settling of a `chrome.runtime.sendMessage` call, and changes made to the page by
the user. Elements are referred to by identifiers, as JavaScript refers to
objects. The copy button of the popup is not part of the model. -/

/-- An element of the page that can have the focus. -/
structure Element where
  tagName : String
  type : String
  isContentEditable : Bool
  value : String
  selectionStart : Nat
  selectionEnd : Nat

/-- The function `isTextInputElement`. -/
def isTextInputElement (element : Option Element) : Bool :=
  match element with
  | none => false
  | some el =>
    if toLowerCase el.tagName = "textarea" then true
    else if toLowerCase el.tagName = "input" then
      ["text", "search", "url", "email", "tel"].contains (toLowerCase el.type)
    else el.isContentEditable

/-- What the script reads from the page: the live selection and its rectangle,
the focused element (an index into `elements`), the window metrics, the size a
freshly appended popup measures, and the result of `isDarkMode()`. -/
structure Page where
  selectionText : String
  rangeRect : Rect
  activeElement : Option Nat
  elements : List Element
  view : Viewport
  popupWidth : ℚ
  popupHeight : ℚ
  dark : Bool

/-- The stored settings the content script reads; a missing key is `undefined`.
The listeners are installed after `loadSettings`, so `settings` is an object
whenever one of them runs. -/
structure PageSettings where
  apiKey : JVal
  sourceLang : JVal
  targetLang : JVal

/-- The `TRANSLATE` message sent to the worker. -/
structure PageMessage where
  text : String
  sourceLang : JVal
  targetLang : JVal

/-- A response of the worker as the content script sees it; the translation of a
success is a string. -/
inductive Reply where
  | success (translation : String) (detectedLang : JVal)
  | failure (error : String)

/-- What `await chrome.runtime.sendMessage(...)` settles to: a response, `none`
for no response at all, or an exception. -/
inductive SendOutcome where
  | resolved (response : Option Reply)
  | rejected (error : JsError)

/-- A popup element: its identifier, class list and style, its markup, and whether
the close button of that markup has the click listener of `setupPopupEvents`. -/
structure PopupEl where
  id : Nat
  style : PopupStyle
  innerHTML : String
  closeListener : Bool

/-- A modal overlay: its identifier, the dark flag of the modal, its markup, and
the translation captured by the listener of the confirm button. -/
structure ModalEl where
  id : Nat
  dark : Bool
  innerHTML : String
  translation : String

/-- A toast: its identifier, text and type. -/
structure ToastEl where
  id : Nat
  message : String
  type : String

/-- A node appended to `document.body` by the script. -/
inductive Node where
  | popup (el : PopupEl)
  | overlay (el : ModalEl)
  | toast (el : ToastEl)

/-- The identifier of a node. -/
def Node.id : Node → Nat
  | .popup el => el.id
  | .overlay el => el.id
  | .toast el => el.id

/-- Where the selection was made, as recorded in `selectionData`: in a text box
(`isInTextBox`, with `activeElement`), or in plain text (with `range`). -/
inductive SelectionTarget where
  | textBox (activeElement : Nat)
  | plain (range : Rect)

/-- The object `selectionData` captured by the debounce callback. -/
structure SelectionData where
  text : String
  target : SelectionTarget

/-- What a pending timer does when it fires: resume `handleMouseUp` after its
10 ms wait, run the debounce callback, or fade and remove a toast. -/
inductive TimerTask where
  | settle
  | debounce (data : SelectionData)
  | toastFade (toast : Nat)
  | toastRemove (toast : Nat)

/-- A pending `setTimeout`: its identifier, the time from which it may fire, its task. -/
structure Timer where
  id : Nat
  due : Nat
  task : TimerTask

/-- The function that awaits a `sendMessage` call, with what its continuation captured. -/
inductive Awaiter where
  | popupMode
  | textBoxMode (text : String)

/-- A `sendMessage` call that has not settled. -/
structure InFlight where
  id : Nat
  message : PageMessage
  awaiter : Awaiter

/-- A side effect on the page other than on `document.body`. -/
inductive PageEffect where
  | execInsertText (text : String)
  | inputEvent (element : Nat)

/-- The module variables of the content script, followed by the page, the nodes
of `document.body` the script appended, the pending timers, the calls in flight,
the messages sent so far, the other effects, the clock in milliseconds, and the
next fresh identifier. -/
structure PageState where
  popup : Option Nat
  modalOverlay : Option Nat
  settings : PageSettings
  isProcessing : Bool
  lastSelectedText : String
  currentTextBox : Option Nat
  translationTimer : Option Nat
  page : Page
  body : List Node
  timers : List Timer
  inFlight : List InFlight
  sent : List PageMessage
  effects : List PageEffect
  now : Nat
  nextId : Nat

/-- The state when `init` has finished: nothing shown, nothing pending. -/
def PageState.initial (settings : PageSettings) (page : Page) : PageState :=
  { popup := none, modalOverlay := none, settings := settings, isProcessing := false,
    lastSelectedText := "", currentTextBox := none, translationTimer := none, page := page,
    body := [], timers := [], inFlight := [], sent := [], effects := [], now := 0, nextId := 1 }

/-- The call `node.remove()`. -/
def removeNode (body : List Node) (id : Nat) : List Node :=
  body.filter (fun node => node.id != id)

/-- The call `setTimeout(task, ms)`: the identifier returned and the new state. -/
def setTimeout (s : PageState) (ms : Nat) (task : TimerTask) : Nat × PageState :=
  (s.nextId,
    { s with timers := s.timers ++ [{ id := s.nextId, due := s.now + ms, task := task }],
             nextId := s.nextId + 1 })

/-- The statement `if (translationTimer) clearTimeout(translationTimer), translationTimer = null`. -/
def clearTranslationTimer (s : PageState) : PageState :=
  match s.translationTimer with
  | some id =>
    if id = 0 then s
    else { s with timers := s.timers.filter (fun t => t.id != id), translationTimer := none }
  | none => s

/-- The function `removePopup`. -/
def removePopup (s : PageState) : PageState :=
  match s.popup with
  | some id => { s with body := removeNode s.body id, popup := none, lastSelectedText := "" }
  | none => s

/-- The function `removeModal`. -/
def removeModal (s : PageState) : PageState :=
  match s.modalOverlay with
  | some id => { s with body := removeNode s.body id, modalOverlay := none, currentTextBox := none }
  | none => { s with currentTextBox := none }

/-- The call `chrome.runtime.sendMessage` with a `TRANSLATE` message, awaited by `awaiter`. -/
def sendMessage (s : PageState) (text : String) (awaiter : Awaiter) : PageState :=
  let message : PageMessage :=
    { text := text
      sourceLang := s.settings.sourceLang.or (.str "auto")
      targetLang := s.settings.targetLang.or (.str "id") }
  { s with inFlight := s.inFlight ++ [{ id := s.nextId, message := message, awaiter := awaiter }],
           sent := s.sent ++ [message],
           nextId := s.nextId + 1 }

/-- The function `showToast`: the toast is appended and its fade is scheduled. -/
def showToast (s : PageState) (message type : String) : PageState :=
  let toast : ToastEl := { id := s.nextId, message := message, type := type }
  (setTimeout { s with body := s.body ++ [.toast toast], nextId := s.nextId + 1 } 3000
    (.toastFade toast.id)).2

/-- The function `showConfirmationModal`. -/
def showConfirmationModal (s : PageState) (originalText translation : String) : PageState :=
  let overlay : ModalEl :=
    { id := s.nextId, dark := s.page.dark, innerHTML := modalHtml originalText translation,
      translation := translation }
  { s with modalOverlay := some overlay.id, body := s.body ++ [.overlay overlay],
           nextId := s.nextId + 1 }

/-- The plain input or textarea branch of `replaceTextInTextBox`: the new value,
and the caret set by `setSelectionRange`, which clamps to the length of the value. -/
def replaceInElement (element : Element) (translation : String) : Element :=
  let start := element.selectionStart
  let stop := element.selectionEnd
  let value := element.value
  let newValue := String.mk (value.data.take start) ++ translation ++ String.mk (value.data.drop stop)
  let newPos := start + translation.length
  { element with value := newValue
                 selectionStart := min newPos newValue.length
                 selectionEnd := min newPos newValue.length }

/-- The function `replaceTextInTextBox`. -/
def replaceTextInTextBox (s : PageState) (translation : String) : PageState :=
  match s.currentTextBox with
  | none => s
  | some ref =>
    match s.page.elements.get? ref with
    | none => { s with currentTextBox := none }
    | some element =>
      if element.isContentEditable then
        { s with effects := s.effects ++ [.execInsertText translation], currentTextBox := none }
      else
        let elements := s.page.elements.set ref (replaceInElement element translation)
        { s with page := { s.page with elements := elements },
                 effects := s.effects ++ [.inputEvent ref],
                 currentTextBox := none }

/-- The assignment `popup.innerHTML = html` on the popup `id`; `listener` tells
whether `setupPopupEvents` follows. Replacing the markup drops the old buttons. -/
def setPopupHtml (s : PageState) (id : Nat) (html : String) (listener : Bool) : PageState :=
  { s with body := s.body.map (fun node =>
      match node with
      | .popup el =>
        if el.id = id then .popup { el with innerHTML := html, closeListener := listener }
        else node
      | _ => node) }

/-- The error text chosen in the `catch` blocks of `showTranslationPopup` and
`handleTextBoxSelection`. -/
def connectionErrorMessage (error : JsError) : String :=
  if includes error.message "Extension context invalidated" then
    "Extension reloaded. Please refresh the page."
  else if includes error.message "Could not establish connection" then
    "Extension not responding. Try reloading the page."
  else error.messageOr "Connection error"

/-- The function `showTranslationPopup` up to its `await`: the old popup is
removed, the new one is created with the loading markup, measured, placed, made
visible, and the request is sent. -/
def showTranslationPopup (s : PageState) (text : String) (rect : Rect) : PageState :=
  let s1 := removePopup s
  let el : PopupEl :=
    { id := s1.nextId
      style := positionPopup (popupClasses s1.page.dark) rect s1.page.view s1.page.popupWidth
        s1.page.popupHeight
      innerHTML := createPopupContent
        { loading := true, translation := none, error := none
          sourceLang := s1.settings.sourceLang.or (.str "auto")
          targetLang := s1.settings.targetLang.or (.str "id") }
      closeListener := false }
  sendMessage { s1 with popup := some el.id, body := s1.body ++ [.popup el], nextId := s1.nextId + 1 }
    text .popupMode

/-- The function `showTranslationPopup` from its `await` on: what is done when the
`sendMessage` call has settled. -/
def popupReply (s : PageState) (outcome : SendOutcome) : PageState :=
  match s.popup with
  | none => s
  | some popup =>
    match outcome with
    | .resolved none =>
      setPopupHtml s popup (createPopupContent
        { loading := false, translation := none
          error := some "No response from extension. Please reload the page."
          sourceLang := s.settings.sourceLang.or (.str "auto")
          targetLang := s.settings.targetLang.or (.str "id") }) false
    | .resolved (some (.success translation detectedLang)) =>
      setPopupHtml s popup (createPopupContent
        { loading := false, translation := some translation, error := none
          sourceLang := detectedLang.or s.settings.sourceLang
          targetLang := s.settings.targetLang.or (.str "id") }) true
    | .resolved (some (.failure error)) =>
      setPopupHtml s popup (createPopupContent
        { loading := false, translation := none
          error := some (if error = "" then "Translation failed" else error)
          sourceLang := s.settings.sourceLang.or (.str "auto")
          targetLang := s.settings.targetLang.or (.str "id") }) false
    | .rejected error =>
      setPopupHtml s popup (createPopupContent
        { loading := false, translation := none
          error := some (connectionErrorMessage error)
          sourceLang := s.settings.sourceLang.or (.str "auto")
          targetLang := s.settings.targetLang.or (.str "id") }) false

/-- The function `handleTextBoxSelection` up to its `await`. -/
def handleTextBoxSelection (s : PageState) (text : String) : PageState :=
  sendMessage { removeModal s with isProcessing := true } text (.textBoxMode text)

/-- The variable `error` of `handleTextBoxSelection` once the call has settled;
it is empty exactly for a response with `success`. -/
def textBoxError (outcome : SendOutcome) : String :=
  match outcome with
  | .resolved none => "No response from extension. Please reload the page."
  | .resolved (some (.success _ _)) => ""
  | .resolved (some (.failure error)) => if error = "" then "Translation failed" else error
  | .rejected error => connectionErrorMessage error

/-- The variable `translation` of `handleTextBoxSelection` once the call has settled. -/
def textBoxTranslation (outcome : SendOutcome) : String :=
  match outcome with
  | .resolved (some (.success translation _)) => translation
  | _ => ""

/-- The function `handleTextBoxSelection` from its `await` on. -/
def textBoxReply (s : PageState) (text : String) (outcome : SendOutcome) : PageState :=
  let s1 := { s with isProcessing := false }
  if textBoxError outcome ≠ "" then showToast s1 (textBoxError outcome) "error"
  else showConfirmationModal s1 text (textBoxTranslation outcome)

/-- The function `handleMouseDown`; `inPopup` is `popup.contains(e.target)`. -/
def handleMouseDown (s : PageState) (inPopup : Bool) : PageState :=
  let s1 := clearTranslationTimer s
  if s1.popup.isSome && !inPopup then removePopup s1 else s1

/-- The function `handleKeyDown`. -/
def handleKeyDown (s : PageState) (key : String) : PageState :=
  if key = "Escape" then removeModal (removePopup (clearTranslationTimer s)) else s

/-- The function `handleMouseUp` up to its `await`; `external` is
`isExternalElement(e.target)`. -/
def handleMouseUp (s : PageState) (external : Bool) : PageState :=
  if s.isProcessing || !s.settings.apiKey.truthy then s
  else if external then s
  else (setTimeout (clearTranslationTimer s) 10 .settle).2

/-- The function `handleMouseUp` after its 10 ms wait: the selection is read and
the debounce timer is scheduled. -/
def handleMouseUpSettled (s : PageState) : PageState :=
  let selectedText := trim s.page.selectionText
  if selectedText = "" || decide (selectedText.length < 2) then s
  else if decide (selectedText = s.lastSelectedText) && s.popup.isSome then s
  else
    let element := s.page.activeElement.bind (fun i => s.page.elements.get? i)
    let target : SelectionTarget :=
      match s.page.activeElement with
      | some i => if isTextInputElement element then .textBox i else .plain s.page.rangeRect
      | none => .plain s.page.rangeRect
    let scheduled := setTimeout s 500 (.debounce { text := selectedText, target := target })
    { scheduled.2 with translationTimer := some scheduled.1 }

/-- The callback of the debounce timer. -/
def onDebounce (s : PageState) (data : SelectionData) : PageState :=
  let s1 := { s with translationTimer := none }
  if trim s1.page.selectionText ≠ data.text then s1
  else
    let s2 := { s1 with lastSelectedText := data.text }
    match data.target with
    | .textBox activeElement =>
      handleTextBoxSelection { s2 with currentTextBox := some activeElement } data.text
    | .plain range => showTranslationPopup s2 data.text range

/-- What a timer does when it fires. -/
def runTimer (s : PageState) : TimerTask → PageState
  | .settle => handleMouseUpSettled s
  | .debounce data => onDebounce s data
  | .toastFade toast => (setTimeout s 300 (.toastRemove toast)).2
  | .toastRemove toast => { s with body := removeNode s.body toast }

/-- The popup the variable `popup` refers to, when it is in `document.body`. -/
def currentPopup (s : PageState) : Option PopupEl :=
  match s.popup with
  | none => none
  | some id =>
    s.body.findSome? (fun node =>
      match node with
      | .popup el => if el.id = id then some el else none
      | _ => none)

/-- An overlay of `document.body`, by identifier. -/
def findOverlay (s : PageState) (id : Nat) : Option ModalEl :=
  s.body.findSome? (fun node =>
    match node with
    | .overlay el => if el.id = id then some el else none
    | _ => none)

/-- The events of the page. -/
inductive Event where
  | mouseDown (inPopup : Bool)
  | mouseUp (external : Bool)
  | keyDown (key : String)
  | tick (ms : Nat)
  | timer (id : Nat)
  | reply (id : Nat) (outcome : SendOutcome)
  | page (page : Page)
  | settingsLoaded (settings : PageSettings)
  | clickClose
  | clickCancel (overlay : Nat)
  | clickBackdrop (overlay : Nat)
  | clickConfirm (overlay : Nat)

/-- One event applied to the state. A timer fires only when it is pending and
due; a reply is delivered only to a call in flight; a button is clicked only
when it exists and has its listener. -/
def step (s : PageState) : Event → PageState
  | .mouseDown inPopup => handleMouseDown s inPopup
  | .mouseUp external => handleMouseUp s external
  | .keyDown key => handleKeyDown s key
  | .tick ms => { s with now := s.now + ms }
  | .timer id =>
    match s.timers.find? (fun t => t.id == id) with
    | some t =>
      if t.due ≤ s.now then
        runTimer { s with timers := s.timers.filter (fun t => t.id != id) } t.task
      else s
    | none => s
  | .reply id outcome =>
    match s.inFlight.find? (fun r => r.id == id) with
    | some r =>
      match r.awaiter with
      | .popupMode =>
        popupReply { s with inFlight := s.inFlight.filter (fun r => r.id != id) } outcome
      | .textBoxMode text =>
        textBoxReply { s with inFlight := s.inFlight.filter (fun r => r.id != id) } text outcome
    | none => s
  | .page page => { s with page := page }
  | .settingsLoaded settings => { s with settings := settings }
  | .clickClose =>
    match currentPopup s with
    | some el => if el.closeListener then removePopup s else s
    | none => s
  | .clickCancel overlay =>
    match findOverlay s overlay with
    | some _ => removeModal s
    | none => s
  | .clickBackdrop overlay =>
    match findOverlay s overlay with
    | some _ => if s.modalOverlay = some overlay then removeModal s else s
    | none => s
  | .clickConfirm overlay =>
    match findOverlay s overlay with
    | some el => removeModal (replaceTextInTextBox s el.translation)
    | none => s

/-- A sequence of events applied to the state, in order. -/
def run (s : PageState) (events : List Event) : PageState :=
  events.foldl step s

/-- Whether a timer task is the debounce callback. -/
def TimerTask.isDebounce : TimerTask → Bool
  | .debounce _ => true
  | _ => false

/-! ## Specification-side definitions -/

/-- The ordered candidate list of the specification for the custom adapter:
`translation`, `translatedText`, `translated_text`, `result`, `text`,
`data.translation`, `choices[0].message.content` of a response body that is not
nullish, a missing path giving `undefined`. -/
def customCandidates (data : JVal) : List JVal :=
  [data.prop "translation", data.prop "translatedText", data.prop "translated_text",
   data.prop "result", data.prop "text", optProp (data.prop "data") "translation",
   optProp (optProp (optItem0 (data.prop "choices")) "message") "content"]

/-- The first non-empty (truthy) value of a candidate list, the empty string when
there is none. -/
def firstNonEmpty (candidates : List JVal) : JVal :=
  (candidates.find? JVal.truthy).getD (.str "")

/-- The message of the specification for a non-success status: the message the
backend provided when there is one, else `<Backend> API error: <status>`. -/
def backendMessage (provided : JVal) (backend : String) (status : Nat) : String :=
  if provided.truthy then toStr provided else backend ++ " API error: " ++ toString status

/-- The top edge of the placed popup in viewport coordinates: the popup is
shifted up by its own height when the transform is `translateY(-100%)`. -/
def topEdge (style : PopupStyle) (view : Viewport) (height : ℚ) : ℚ :=
  if style.transform = "translateY(-100%)" then style.top - view.scrollY - height
  else style.top - view.scrollY

/-! ## Sample inputs -/

/-- A network on which every `fetch` rejects. -/
def offline : Net :=
  fun _ _ => .error ⟨"offline"⟩

/-- A network that answers every request with the same response. -/
def always (response : Response) : Net :=
  fun _ _ => .ok response

/-- A message asking to translate `hello` into Indonesian, source auto-detected. -/
def helloAuto : TranslateMessage :=
  { text := "hello", sourceLang := "auto", targetLang := "id" }

/-- Stored settings with the given service and endpoint and the API key `k`. -/
def settingsFor (service endpoint : JVal) : Settings :=
  { service := service, customEndpoint := endpoint, apiKey := .str "k", smartTranslate := .undefined }

/-- A response with status 200 whose body parses to `data`. -/
def okJson (data : JVal) : Response :=
  { status := 200, json := .ok data, text := .ok "" }

/-- A DeepL network: the free endpoint answers 403 with a message, and the
pro endpoint answers 200 with one translation. -/
def deeplProOnly : Net :=
  fun issued _ =>
    match issued with
    | [] => .ok { status := 403, json := .ok (.obj [("message", .str "Wrong endpoint")]), text := .ok "" }
    | _ => .ok (okJson (.obj [("translations", .arr [.obj [
        ("detected_source_language", .str "EN"), ("text", .str "halo")]])]))

/-- A DeepL network: the free endpoint answers 200 with a body that is not JSON,
the pro endpoint answers 200 with one translation. -/
def deeplFreeGarbled : Net :=
  fun issued _ =>
    match issued with
    | [] => .ok { status := 200, json := .error ⟨"Unexpected end of JSON input"⟩, text := .ok "" }
    | _ => .ok (okJson (.obj [("translations", .arr [.obj [
        ("detected_source_language", .str "EN"), ("text", .str "halo")]])]))

/-- A page with `text` selected in plain text, nothing focused. -/
def plainPage (text : String) : Page :=
  { selectionText := text, rangeRect := ⟨100, 120, 40, 200⟩, activeElement := none, elements := [],
    view := ⟨1000, 800, 0, 0⟩, popupWidth := 300, popupHeight := 80, dark := false }

/-- A page with one focused textarea whose whole value `text` is selected. -/
def textBoxPage (text : String) : Page :=
  { selectionText := text, rangeRect := ⟨100, 120, 40, 200⟩, activeElement := some 0,
    elements := [⟨"TEXTAREA", "textarea", false, text, 0, text.length⟩],
    view := ⟨1000, 800, 0, 0⟩, popupWidth := 300, popupHeight := 80, dark := false }

/-- Settings of the content script with an API key and no language stored. -/
def pageSettings : PageSettings :=
  { apiKey := .str "k", sourceLang := .undefined, targetLang := .undefined }

/-- Two pointer releases 5 ms apart on the same selection, then the four timers
firing as they fall due: the two 10 ms waits at 10 and 15 ms, the two debounce
timers at 510 and 515 ms. -/
def doubleRelease : List Event :=
  [.mouseUp false, .tick 5, .mouseUp false, .tick 5, .timer 1, .tick 5, .timer 2,
   .tick 495, .timer 3, .tick 5, .timer 4]

/-- A selection whose popup is open and whose request (4) is in flight, a click
elsewhere, a second selection whose popup is open and whose request (8) is in
flight, and then the reply to the first request. -/
def superseded : List Event :=
  [.mouseUp false, .tick 10, .timer 1, .tick 500, .timer 2,
   .mouseDown false, .page (plainPage "gamma delta"), .mouseUp false, .tick 10, .timer 5,
   .tick 500, .timer 6,
   .reply 4 (.resolved (some (.success "terjemahan alpha" (.str "en"))))]

/-- A selection whose request (3, or 4 in popup mode) is in flight, the Escape
key, and then the successful reply. -/
def escapeThenReply (request : Nat) : List Event :=
  [.mouseUp false, .tick 10, .timer 1, .tick 500, .timer 2, .keyDown "Escape",
   .reply request (.resolved (some (.success "halo dunia" (.str "en"))))]

/-- A selection of the whole value of a textarea, the successful reply to its
request (3), and a click on the confirm button of the modal (4). -/
def confirmReplace : List Event :=
  [.mouseUp false, .tick 10, .timer 1, .tick 500, .timer 2,
   .reply 3 (.resolved (some (.success "halo dunia" (.str "en")))),
   .clickConfirm 4]

/-! ## Theorems -/

/-! ### Helper lemmas -/

theorem strictEq_eq_false_of_ne {v : JVal} {s : String} (h : v ≠ .str s) :
    v.strictEq s = false := by
  cases v <;> simp [JVal.strictEq]
  rename_i t
  intro ht
  exact h (by rw [ht])

theorem dispatch_none_of_unknown (net : Net) (msg : TranslateMessage) (settings : Settings)
    (service : JVal)
    (h : ∀ name ∈ ["openai", "gemini", "deepseek", "deepl", "custom"], service ≠ .str name) :
    dispatch net msg settings service = none := by
  have h1 := strictEq_eq_false_of_ne (h "openai" (by simp))
  have h2 := strictEq_eq_false_of_ne (h "gemini" (by simp))
  have h3 := strictEq_eq_false_of_ne (h "deepseek" (by simp))
  have h4 := strictEq_eq_false_of_ne (h "deepl" (by simp))
  have h5 := strictEq_eq_false_of_ne (h "custom" (by simp))
  simp [dispatch, h1, h2, h3, h4, h5]

theorem truthy_or_empty (x : JVal) :
    (x.or (.str "")).truthy = true ↔ x.or (.str "") ≠ .str "" := by
  unfold JVal.or
  by_cases hx : x.truthy = true
  · simp only [hx, if_true, true_iff]
    intro h
    rw [h] at hx
    simp [JVal.truthy] at hx
  · have hf : x.truthy = false := by simpa using hx
    rw [if_neg (by simp [hf])]
    constructor
    · intro h
      exact absurd h (by decide)
    · intro h
      exact absurd rfl h

theorem truthy_str (s : String) : (JVal.str s).truthy = true ↔ JVal.str s ≠ .str "" := by
  simp [JVal.truthy]

theorem chatResult_translation {response : Response} {sourceLang : String} {r : AdapterResult}
    (h : chatResult response sourceLang = .ok r) :
    (r.translation.truthy = true ↔ r.translation ≠ .str "") ∧ r.detectedLang = .str sourceLang := by
  unfold chatResult chatTranslation at h
  cases hj : response.json with
  | error e => simp [hj, bind, Except.bind] at h
  | ok data =>
    simp only [hj, bind, Except.bind] at h
    cases h1 : getProp data "choices" with
    | error e => simp [h1] at h
    | ok choices =>
      simp only [h1] at h
      cases h2 : getItem0 choices with
      | error e => simp [h2] at h
      | ok first =>
        simp only [h2] at h
        cases h3 : optCallTrim "data.choices[0]?.message?.content?.trim"
            (optProp (optProp first "message") "content") with
        | error e => simp [h3] at h
        | ok trimmed =>
          simp only [h3, pure, Except.pure, Except.ok.injEq] at h
          subst h
          exact ⟨truthy_or_empty trimmed, rfl⟩

theorem geminiResult_translation {response : Response} {sourceLang : String} {r : AdapterResult}
    (h : geminiResult response sourceLang = .ok r) :
    (r.translation.truthy = true ↔ r.translation ≠ .str "") ∧ r.detectedLang = .str sourceLang := by
  unfold geminiResult geminiTranslation at h
  cases hj : response.json with
  | error e => simp [hj, bind, Except.bind] at h
  | ok data =>
    simp only [hj, bind, Except.bind] at h
    cases h1 : getProp data "candidates" with
    | error e => simp [h1] at h
    | ok candidates =>
      simp only [h1] at h
      cases h3 : optCallTrim "data.candidates?.[0]?.content?.parts?.[0]?.text?.trim"
          (optProp (optItem0 (optProp (optProp (optItem0 candidates) "content") "parts")) "text") with
      | error e => simp [h3] at h
      | ok trimmed =>
        simp only [h3, pure, Except.pure, Except.ok.injEq] at h
        subst h
        exact ⟨truthy_or_empty trimmed, rfl⟩

theorem deeplExtract_translation {data : JVal} {sourceLang : String} {r : AdapterResult}
    (h : deeplExtract data sourceLang = .ok r) :
    r.translation.truthy = true ↔ r.translation ≠ .str "" := by
  unfold deeplExtract at h
  cases h1 : getProp data "translations" with
  | error e => simp [h1, bind, Except.bind] at h
  | ok translations =>
    simp only [h1, bind, Except.bind] at h
    cases h3 : optCallToLowerCase "data.translations?.[0]?.detected_source_language?.toLowerCase"
        (optProp (optItem0 translations) "detected_source_language") with
    | error e => simp [h3] at h
    | ok detected =>
      simp only [h3, pure, Except.pure, Except.ok.injEq] at h
      subst h
      exact truthy_or_empty _

theorem deeplAttempt_translation {fetched : Except JsError Response} {sourceLang : String}
    {r : AdapterResult} (h : deeplAttempt fetched sourceLang = .ok r) :
    r.translation.truthy = true ↔ r.translation ≠ .str "" := by
  unfold deeplAttempt at h
  cases fetched with
  | error e => simp at h
  | ok response =>
    simp only at h
    by_cases hok : response.ok = true
    · simp only [hok, if_true] at h
      cases hj : response.json with
      | error e => simp [hj] at h
      | ok data =>
        simp only [hj] at h
        exact deeplExtract_translation h
    · simp [hok] at h

theorem deeplLoop_translation (net : Net) (text sourceLang targetLang : String) (apiKey : JVal)
    (urls : List String) (lastError : Option JsError) (issued : List Request) {r : AdapterResult}
    (h : (deeplLoop net text sourceLang targetLang apiKey urls lastError issued).outcome = .ok r) :
    r.translation.truthy = true ↔ r.translation ≠ .str "" := by
  induction urls generalizing lastError issued with
  | nil => simp [deeplLoop] at h
  | cons baseUrl rest ih =>
    unfold deeplLoop at h
    simp only at h
    cases ha : deeplAttempt (net issued (deeplRequest baseUrl text sourceLang targetLang apiKey))
        sourceLang with
    | error e =>
      simp only [ha] at h
      exact ih _ _ h
    | ok result =>
      simp only [ha, Except.ok.injEq] at h
      subst h
      exact deeplAttempt_translation ha

theorem customExtract_translation {data : JVal} {sourceLang : String} {r : AdapterResult}
    (h : customExtract data sourceLang = .ok r) :
    r.translation.truthy = true ↔ r.translation ≠ .str "" := by
  unfold customExtract at h
  cases h1 : customTranslation data with
  | error e => simp [h1, bind, Except.bind] at h
  | ok translation =>
    simp only [h1, bind, Except.bind] at h
    cases translation with
    | str s =>
      simp only [callTrim] at h
      cases h2 : getProp data "detected_lang" with
      | error e => simp [h2] at h
      | ok d1 =>
        simp only [h2] at h
        cases h3 : getProp data "detectedLanguage" with
        | error e => simp [h3] at h
        | ok d2 =>
          simp only [h3, pure, Except.pure, Except.ok.injEq] at h
          subst h
          exact truthy_str _
    | _ => simp [callTrim] at h

theorem dispatch_translation {net : Net} {msg : TranslateMessage} {settings : Settings}
    {service : JVal} {run : Run AdapterResult} {r : AdapterResult}
    (hd : dispatch net msg settings service = some run) (hr : run.outcome = .ok r) :
    r.translation.truthy = true ↔ r.translation ≠ .str "" := by
  unfold dispatch at hd
  split at hd
  · simp only [Option.some.injEq] at hd
    subst hd
    simp only [translateWithOpenAI] at hr
    split at hr
    · simp at hr
    · split at hr
      · exact (chatResult_translation hr).1
      · simp at hr
  · split at hd
    · simp only [Option.some.injEq] at hd
      subst hd
      simp only [translateWithGemini] at hr
      split at hr
      · simp at hr
      · split at hr
        · exact (geminiResult_translation hr).1
        · simp at hr
    · split at hd
      · simp only [Option.some.injEq] at hd
        subst hd
        simp only [translateWithDeepSeek] at hr
        split at hr
        · simp at hr
        · split at hr
          · exact (chatResult_translation hr).1
          · simp at hr
      · split at hd
        · simp only [Option.some.injEq] at hd
          subst hd
          exact deeplLoop_translation _ _ _ _ _ _ _ _ hr
        · split at hd
          · simp only [Option.some.injEq] at hd
            subst hd
            unfold translateWithCustom at hr
            split at hr
            · simp at hr
            · simp only at hr
              split at hr
              · simp at hr
              · split at hr
                · split at hr
                  · simp at hr
                  · exact customExtract_translation hr
                · simp at hr
          · simp at hd

theorem translateWithDeepL_eq (net : Net) (text sourceLang targetLang : String) (apiKey : JVal) :
    translateWithDeepL net text sourceLang targetLang apiKey =
      match deeplAttempt (net [] (deeplPrimary text sourceLang targetLang apiKey)) sourceLang with
      | .ok result =>
        { outcome := .ok result, requests := [deeplPrimary text sourceLang targetLang apiKey] }
      | .error _ =>
        { outcome :=
            deeplAttempt (net [deeplPrimary text sourceLang targetLang apiKey]
              (deeplSecondary text sourceLang targetLang apiKey)) sourceLang
          requests := [deeplPrimary text sourceLang targetLang apiKey,
            deeplSecondary text sourceLang targetLang apiKey] } := by
  simp only [translateWithDeepL, deeplBaseUrls, deeplLoop, deeplPrimary, deeplSecondary,
    List.nil_append, List.cons_append, Option.getD]
  cases deeplAttempt (net [] (deeplRequest "https://api-free.deepl.com/v2/translate" text
      sourceLang targetLang apiKey)) sourceLang with
  | ok result => rfl
  | error e =>
    simp only
    cases deeplAttempt (net [deeplRequest "https://api-free.deepl.com/v2/translate" text
      sourceLang targetLang apiKey] (deeplRequest "https://api.deepl.com/v2/translate" text
      sourceLang targetLang apiKey)) sourceLang <;> rfl

theorem customTranslation_eq {data : JVal} (hdata : data.isNullish = false) :
    customTranslation data = .ok (firstNonEmpty (customCandidates data)) := by
  simp only [customTranslation, getProp, hdata, Bool.false_eq_true, if_false, bind, Except.bind,
    pure, Except.pure, Except.ok.injEq, firstNonEmpty, customCandidates, List.find?, JVal.or]
  repeat' split
  all_goals simp_all

theorem mem_classListAdd (classes : List String) (name c : String) :
    c ∈ classListAdd classes name ↔ c ∈ classes ∨ c = name := by
  unfold classListAdd
  split
  · constructor
    · intro h; exact Or.inl h
    · rintro (h | h)
      · exact h
      · subst h; assumption
  · simp

theorem mem_classListRemove (classes : List String) (name c : String) :
    c ∈ classListRemove classes name ↔ c ∈ classes ∧ c ≠ name := by
  simp [classListRemove]

theorem arrowTop_mem_placeHorizontal (classes : List String) (rect : Rect) (view : Viewport)
    (w : ℚ) : "arrow-top" ∈ (placeHorizontal classes rect view w).1 ↔ "arrow-top" ∈ classes := by
  unfold placeHorizontal
  simp only
  split <;> split <;> simp [mem_classListAdd, mem_classListRemove]

theorem arrowTop_not_mem_popupClasses (isDark : Bool) : "arrow-top" ∉ popupClasses isDark := by
  cases isDark <;> simp [popupClasses]

theorem replaceInElement_splice (element : Element) (translation : String)
    (hstart : element.selectionStart ≤ element.selectionEnd)
    (hstop : element.selectionEnd ≤ element.value.length) :
    (replaceInElement element translation).value.data =
        element.value.data.take element.selectionStart ++ translation.data ++
          element.value.data.drop element.selectionEnd ∧
      (replaceInElement element translation).value.data.take element.selectionStart =
        element.value.data.take element.selectionStart ∧
      (replaceInElement element translation).value.data.drop
          (element.selectionStart + translation.length) =
        element.value.data.drop element.selectionEnd ∧
      (replaceInElement element translation).selectionStart =
        element.selectionStart + translation.length ∧
      (replaceInElement element translation).selectionEnd =
        element.selectionStart + translation.length := by
  have hl : ∀ x : String, x.length = x.data.length := fun _ => rfl
  have hlen : element.selectionStart ≤ element.value.data.length := by
    rw [← hl]; omega
  have hvalue : (replaceInElement element translation).value.data =
      element.value.data.take element.selectionStart ++ translation.data ++
        element.value.data.drop element.selectionEnd := by
    simp [replaceInElement, String.data_append]
  have htake : (element.value.data.take element.selectionStart).length =
      element.selectionStart := by
    rw [List.length_take]
    exact Nat.min_eq_left hlen
  have hpos : element.selectionStart + translation.length ≤
      (replaceInElement element translation).value.length := by
    rw [hl (replaceInElement element translation).value, hvalue, hl translation]
    simp only [List.length_append, htake]
    omega
  refine ⟨hvalue, ?_, ?_, ?_, ?_⟩
  · rw [hvalue, List.append_assoc, List.take_append_of_le_length (by rw [htake])]
    rw [List.take_of_length_le (by rw [htake])]
  · rw [hvalue, List.append_assoc, hl translation]
    rw [List.drop_append_eq_append_drop]
    simp [htake]
  · simp only [replaceInElement]
    exact Nat.min_eq_left hpos
  · simp only [replaceInElement]
    exact Nat.min_eq_left hpos

theorem placeVertical_top_edge (classes : List String) (rect : Rect) (view : Viewport) (h : ℚ)
    (htop : 0 ≤ rect.top) (hrect : rect.top ≤ rect.bottom) :
    5 ≤ (if (placeVertical classes rect view h).2.1 = "translateY(-100%)" then
          (placeVertical classes rect view h).2.2 - view.scrollY - h
        else (placeVertical classes rect view h).2.2 - view.scrollY) ∧
      (¬ rect.top ≥ h + 15 → ¬ view.innerHeight - rect.bottom ≥ h + 15 →
        10 ≤ (if (placeVertical classes rect view h).2.1 = "translateY(-100%)" then
          (placeVertical classes rect view h).2.2 - view.scrollY - h
        else (placeVertical classes rect view h).2.2 - view.scrollY)) ∧
      (rect.top ≥ h + 15 ∨ view.innerHeight - rect.bottom ≥ h + 15 →
        rect.bottom ≤ view.innerHeight →
        (if (placeVertical classes rect view h).2.1 = "translateY(-100%)" then
          (placeVertical classes rect view h).2.2 - view.scrollY - h
        else (placeVertical classes rect view h).2.2 - view.scrollY) + h ≤ view.innerHeight) := by
  have hne : ¬ ("translateY(0)" = "translateY(-100%)") := by decide
  unfold placeVertical
  by_cases h1 : rect.top ≥ h + 15
  · rw [if_pos h1]
    simp only [if_true]
    exact ⟨by linarith, fun h' => absurd h1 h', fun _ _ => by linarith⟩
  · by_cases h2 : view.innerHeight - rect.bottom ≥ h + 15
    · rw [if_neg h1, if_pos h2]
      simp only [hne, if_false]
      exact ⟨by linarith, fun _ h' => absurd h2 h', fun _ _ => by linarith⟩
    · rw [if_neg h1, if_neg h2]
      simp only [if_true]
      have hmax := le_max_left (h + 10 + view.scrollY) (rect.top + view.scrollY - 10)
      refine ⟨by linarith, fun _ _ => by linarith, ?_⟩
      rintro (h' | h')
      · exact absurd h' h1
      · exact absurd h' h2

theorem textBoxError_eq_empty_iff (outcome : SendOutcome) :
    textBoxError outcome = "" ↔
      ∃ translation detectedLang, outcome = .resolved (some (.success translation detectedLang)) := by
  have hmsg : ∀ e : JsError, connectionErrorMessage e ≠ "" := by
    intro e
    unfold connectionErrorMessage JsError.messageOr
    split
    · decide
    · split
      · decide
      · split
        · decide
        · assumption
  cases outcome with
  | resolved response =>
    cases response with
    | none =>
      simp only [textBoxError]
      constructor
      · intro h; exact absurd h (by decide)
      · rintro ⟨_, _, h⟩; cases h
    | some reply =>
      cases reply with
      | success t d => simp [textBoxError]
      | failure e =>
        simp only [textBoxError]
        constructor
        · intro h
          split at h
          · exact absurd h (by decide)
          · contradiction
        · rintro ⟨_, _, h⟩; cases h
  | rejected e =>
    simp only [textBoxError]
    constructor
    · intro h; exact absurd h (hmsg e)
    · rintro ⟨_, _, h⟩; cases h

theorem success_iff_dispatch (storage : Except JsError Settings) (net : Net)
    (msg : TranslateMessage) (t d : JVal) :
    (handleTranslation storage net msg).outcome = .ok (.success t d) ↔
      ∃ settings run result, storage = .ok settings ∧ settings.apiKey.truthy = true ∧
        dispatch net msg settings (serviceOf settings) = some run ∧
        run.outcome = .ok result ∧ result.translation ≠ .str "" ∧
        t = result.translation ∧ d = result.detectedLang := by
  constructor
  · intro h
    cases storage with
    | error e => simp [handleTranslation, handleTranslationTry] at h
    | ok settings =>
      by_cases hkey : settings.apiKey.truthy = true
      · cases hd : dispatch net msg settings (serviceOf settings) with
        | none => simp [handleTranslation, handleTranslationTry, hkey, hd] at h
        | some run =>
          cases hr : run.outcome with
          | error e => simp [handleTranslation, handleTranslationTry, hkey, hd, hr] at h
          | ok result =>
            by_cases ht : result.translation.truthy = true
            · simp [handleTranslation, handleTranslationTry, hkey, hd, hr, ht] at h
              exact ⟨settings, run, result, rfl, hkey, hd, hr,
                (dispatch_translation hd hr).1 ht, h.1.symm, h.2.symm⟩
            · simp [handleTranslation, handleTranslationTry, hkey, hd, hr, ht] at h
      · simp [handleTranslation, handleTranslationTry, hkey] at h
  · rintro ⟨settings, run, result, hs, hkey, hd, hr, hne, ht, hdl⟩
    subst hs
    have htr := (dispatch_translation hd hr).2 hne
    simp [handleTranslation, handleTranslationTry, hkey, hd, hr, htr, ht, hdl]

theorem serviceOf_eq_openai (settings : Settings) :
    serviceOf settings = .str "openai" ↔
      settings.service.truthy = false ∨ settings.service = .str "openai" := by
  unfold serviceOf JVal.or
  by_cases h : settings.service.truthy = true
  · simp [h]
  · have hf : settings.service.truthy = false := by simpa using h
    simp [hf]

theorem serviceOf_eq_other (settings : Settings) (name : String) (hname : name ≠ "openai")
    (hne : name ≠ "") :
    serviceOf settings = .str name ↔ settings.service = .str name := by
  unfold serviceOf JVal.or
  by_cases h : settings.service.truthy = true
  · simp [h]
  · have hf : settings.service.truthy = false := by simpa using h
    simp only [hf, Bool.false_eq_true, if_false, JVal.str.injEq]
    constructor
    · intro h'
      exact absurd h'.symm hname
    · intro h'
      rw [h'] at hf
      simp [JVal.truthy] at hf
      exact absurd hf hne

theorem dispatch_eq_some_iff (net : Net) (msg : TranslateMessage) (settings : Settings)
    (service : JVal) (run : Run AdapterResult) :
    dispatch net msg settings service = some run ↔
      (service = .str "openai" ∧
        run = translateWithOpenAI net msg.text msg.sourceLang msg.targetLang settings.apiKey) ∨
      (service = .str "gemini" ∧
        run = translateWithGemini net msg.text msg.sourceLang msg.targetLang settings.apiKey) ∨
      (service = .str "deepseek" ∧
        run = translateWithDeepSeek net msg.text msg.sourceLang msg.targetLang settings.apiKey) ∨
      (service = .str "deepl" ∧
        run = translateWithDeepL net msg.text msg.sourceLang msg.targetLang settings.apiKey) ∨
      (service = .str "custom" ∧
        run = translateWithCustom net msg.text msg.sourceLang msg.targetLang settings.apiKey
          settings.customEndpoint) := by
  unfold dispatch
  by_cases h1 : service = .str "openai"
  · subst h1
    simp [JVal.strictEq, eq_comm]
  · by_cases h2 : service = .str "gemini"
    · subst h2
      simp [JVal.strictEq, eq_comm]
    · by_cases h3 : service = .str "deepseek"
      · subst h3
        simp [JVal.strictEq, eq_comm]
      · by_cases h4 : service = .str "deepl"
        · subst h4
          simp [JVal.strictEq, eq_comm]
        · by_cases h5 : service = .str "custom"
          · subst h5
            simp [JVal.strictEq, eq_comm]
          · have e1 := strictEq_eq_false_of_ne h1
            have e2 := strictEq_eq_false_of_ne h2
            have e3 := strictEq_eq_false_of_ne h3
            have e4 := strictEq_eq_false_of_ne h4
            have e5 := strictEq_eq_false_of_ne h5
            simp [e1, e2, e3, e4, e5, h1, h2, h3, h4, h5]

/-! ### The dispatcher -/

/-- C1: when the stored `apiKey` is missing (`undefined`) or the empty string,
`handleTranslation` resolves to the failure
`API key not configured. Please set it in extension settings.` and issues no
request, whatever the stored `service` and `customEndpoint` are. -/
theorem handleTranslation_apiKey_missing (net : Net) (msg : TranslateMessage)
    (settings : Settings)
    (h : settings.apiKey = .undefined ∨ settings.apiKey = .str "") :
    (handleTranslation (.ok settings) net msg).outcome =
        .ok (.failure "API key not configured. Please set it in extension settings.") ∧
      (handleTranslation (.ok settings) net msg).requests = [] := by
  have hfalsy : settings.apiKey.truthy = false := by
    rcases h with h | h <;> simp [h, JVal.truthy]
  simp [handleTranslation, handleTranslationTry, hfalsy]

/-- Witness for C1: the DeepL service with an endpoint stored and an empty `apiKey`. -/
theorem handleTranslation_apiKey_missing_witness :
    ((Settings.mk (.str "deepl") (.str "https://example.test/t") (.str "") .undefined).apiKey
        = .undefined ∨
      (Settings.mk (.str "deepl") (.str "https://example.test/t") (.str "") .undefined).apiKey
        = .str "") ∧
    (handleTranslation
        (.ok (Settings.mk (.str "deepl") (.str "https://example.test/t") (.str "") .undefined))
        offline helloAuto).outcome =
      .ok (.failure "API key not configured. Please set it in extension settings.") ∧
    (handleTranslation
        (.ok (Settings.mk (.str "deepl") (.str "https://example.test/t") (.str "") .undefined))
        offline helloAuto).requests = [] :=
  ⟨Or.inr rfl,
    handleTranslation_apiKey_missing offline helloAuto
      (Settings.mk (.str "deepl") (.str "https://example.test/t") (.str "") .undefined)
      (Or.inr rfl)⟩

/-- C2, as stated, fails: the stored service `''` is none of the five names, yet
`settings.service || 'openai'` turns it into `openai`, the OpenAI request is issued
and the result is whatever that adapter gives (here the transport error). -/
theorem handleTranslation_empty_service_defaults :
    (∀ name ∈ ["openai", "gemini", "deepseek", "deepl", "custom"],
      (settingsFor (.str "") .undefined).service ≠ .str name) ∧
    (settingsFor (.str "") .undefined).apiKey = .str "k" ∧
    (handleTranslation (.ok (settingsFor (.str "") .undefined)) offline helloAuto).requests =
      [openAIRequest "hello" "auto" "id" (.str "k")] ∧
    (handleTranslation (.ok (settingsFor (.str "") .undefined)) offline helloAuto).outcome =
      .ok (.failure "offline") :=
  ⟨by simp [settingsFor], rfl, rfl, rfl⟩

/-- C2, amended: with an `apiKey` configured, every stored service value that is
truthy (any non-empty string, in particular) and is none of `openai`, `gemini`,
`deepseek`, `deepl`, `custom` makes `handleTranslation` resolve to the failure
`Unknown service: ` followed by the value, with no request issued. -/
theorem handleTranslation_unknown_service (net : Net) (msg : TranslateMessage)
    (settings : Settings)
    (hkey : settings.apiKey.truthy = true)
    (hservice : settings.service.truthy = true)
    (hunknown : ∀ name ∈ ["openai", "gemini", "deepseek", "deepl", "custom"],
      settings.service ≠ .str name) :
    (handleTranslation (.ok settings) net msg).outcome =
        .ok (.failure ("Unknown service: " ++ toStr settings.service)) ∧
      (handleTranslation (.ok settings) net msg).requests = [] := by
  have hsvc : serviceOf settings = settings.service := by simp [serviceOf, JVal.or, hservice]
  have hd := dispatch_none_of_unknown net msg settings settings.service hunknown
  simp [handleTranslation, handleTranslationTry, hkey, hsvc, hd]

/-- Witness for C2 amended: the stored service `bing`. -/
theorem handleTranslation_unknown_service_witness :
    (settingsFor (.str "bing") .undefined).apiKey.truthy = true ∧
    (settingsFor (.str "bing") .undefined).service.truthy = true ∧
    (∀ name ∈ ["openai", "gemini", "deepseek", "deepl", "custom"],
      (settingsFor (.str "bing") .undefined).service ≠ .str name) ∧
    (handleTranslation (.ok (settingsFor (.str "bing") .undefined)) offline helloAuto).outcome =
      .ok (.failure ("Unknown service: " ++ toStr (settingsFor (.str "bing") .undefined).service)) ∧
    (handleTranslation (.ok (settingsFor (.str "bing") .undefined)) offline helloAuto).requests = [] :=
  ⟨rfl, rfl, by simp [settingsFor],
    handleTranslation_unknown_service offline helloAuto (settingsFor (.str "bing") .undefined)
      rfl rfl (by simp [settingsFor])⟩

/-- C3: `handleTranslation` never rejects. Whatever the settings read and the
network do, it resolves to a response (a success or a failure carrying a string),
which the listener passes to `sendResponse` for a `TRANSLATE` message. When the
settings read throws `e`, or the selected adapter throws `e`, the response is the
failure with `e.message`, and with `Translation failed` when that message is empty. -/
theorem handleTranslation_never_throws (storage : Except JsError Settings) (net : Net)
    (msg : TranslateMessage) :
    (∃ response, (handleTranslation storage net msg).outcome = .ok response ∧
        onMessage storage net "TRANSLATE" msg = some response) ∧
      (∀ e, storage = .error e →
        (handleTranslation storage net msg).outcome =
          .ok (.failure (if e.message = "" then "Translation failed" else e.message))) ∧
      (∀ settings run e, storage = .ok settings → settings.apiKey.truthy = true →
        dispatch net msg settings (serviceOf settings) = some run → run.outcome = .error e →
        (handleTranslation storage net msg).outcome =
          .ok (.failure (if e.message = "" then "Translation failed" else e.message))) := by
  refine ⟨?_, ?_, ?_⟩
  · cases h : (handleTranslationTry storage net msg).outcome <;>
      simp [onMessage, handleTranslation, h]
  · intro e he
    subst he
    simp [handleTranslation, handleTranslationTry, JsError.messageOr]
  · intro settings run e hs hkey hd he
    subst hs
    simp [handleTranslation, handleTranslationTry, JsError.messageOr, hkey, hd, he]

/-- Witness for C3: the OpenAI adapter throwing the transport error `offline`, and
the settings read throwing an error without a message. -/
theorem handleTranslation_never_throws_witness :
    (handleTranslation (.ok (settingsFor (.str "openai") .undefined)) offline helloAuto).outcome =
        .ok (.failure "offline") ∧
      (handleTranslation (.error ⟨""⟩) offline helloAuto).outcome =
        .ok (.failure "Translation failed") :=
  ⟨(handleTranslation_never_throws (.ok (settingsFor (.str "openai") .undefined)) offline
      helloAuto).2.2 (settingsFor (.str "openai") .undefined)
      (translateWithOpenAI offline "hello" "auto" "id" (.str "k")) ⟨"offline"⟩ rfl rfl rfl rfl,
    (handleTranslation_never_throws (.error ⟨""⟩) offline helloAuto).2.1 ⟨""⟩ rfl⟩

/-- C4 fails on the code for the two chat adapters: a 200 response whose body is
the empty object (no `choices`) makes `data.choices[0]` throw, so the OpenAI and
DeepSeek paths resolve to the TypeError message, not to `Empty translation received`.
The Gemini, DeepL and custom paths, which read the same body through `?.`, do
resolve to `Empty translation received`. -/
theorem handleTranslation_body_without_choices :
    (handleTranslation (.ok (settingsFor (.str "openai") .undefined)) (always (okJson (.obj [])))
        helloAuto).outcome =
      .ok (.failure "Cannot read properties of undefined (reading '0')") ∧
    (handleTranslation (.ok (settingsFor (.str "deepseek") .undefined)) (always (okJson (.obj [])))
        helloAuto).outcome =
      .ok (.failure "Cannot read properties of undefined (reading '0')") ∧
    (handleTranslation (.ok (settingsFor (.str "gemini") .undefined)) (always (okJson (.obj [])))
        helloAuto).outcome =
      .ok (.failure "Empty translation received") ∧
    (handleTranslation (.ok (settingsFor (.str "deepl") .undefined)) (always (okJson (.obj [])))
        helloAuto).outcome =
      .ok (.failure "Empty translation received") ∧
    (handleTranslation (.ok (settingsFor (.str "custom") (.str "https://example.test/t")))
        (always (okJson (.obj []))) helloAuto).outcome =
      .ok (.failure "Empty translation received") :=
  ⟨rfl, rfl, rfl, rfl, rfl⟩

/-- C5: `handleTranslation` resolves to `success t d` if and only if the settings
were read, an `apiKey` is configured, and the adapter of the stored service
(OpenAI for `openai` and for a missing or falsy service, Gemini for `gemini`,
DeepSeek for `deepseek`, DeepL for `deepl`, the custom adapter with the
stored endpoint for `custom`), called with the text, the languages and the key,
returned a result whose translation is not the empty string; `t` and `d` are
then that adapter's `translation` and `detectedLang`, unchanged. -/
theorem handleTranslation_success_iff (storage : Except JsError Settings) (net : Net)
    (msg : TranslateMessage) (t d : JVal) :
    (handleTranslation storage net msg).outcome = .ok (.success t d) ↔
      ∃ settings result, storage = .ok settings ∧ settings.apiKey.truthy = true ∧
        (((settings.service.truthy = false ∨ settings.service = .str "openai") ∧
            (translateWithOpenAI net msg.text msg.sourceLang msg.targetLang
              settings.apiKey).outcome = .ok result) ∨
          (settings.service = .str "gemini" ∧
            (translateWithGemini net msg.text msg.sourceLang msg.targetLang
              settings.apiKey).outcome = .ok result) ∨
          (settings.service = .str "deepseek" ∧
            (translateWithDeepSeek net msg.text msg.sourceLang msg.targetLang
              settings.apiKey).outcome = .ok result) ∨
          (settings.service = .str "deepl" ∧
            (translateWithDeepL net msg.text msg.sourceLang msg.targetLang
              settings.apiKey).outcome = .ok result) ∨
          (settings.service = .str "custom" ∧
            (translateWithCustom net msg.text msg.sourceLang msg.targetLang settings.apiKey
              settings.customEndpoint).outcome = .ok result)) ∧
        result.translation ≠ .str "" ∧ t = result.translation ∧ d = result.detectedLang := by
  rw [success_iff_dispatch]
  constructor
  · rintro ⟨settings, run, result, hs, hkey, hd, hr, hrest⟩
    refine ⟨settings, result, hs, hkey, ?_, hrest⟩
    rcases (dispatch_eq_some_iff net msg settings _ run).1 hd with
      ⟨h, rfl⟩ | ⟨h, rfl⟩ | ⟨h, rfl⟩ | ⟨h, rfl⟩ | ⟨h, rfl⟩
    · exact Or.inl ⟨(serviceOf_eq_openai settings).1 h, hr⟩
    · exact Or.inr (Or.inl
        ⟨(serviceOf_eq_other settings "gemini" (by decide) (by decide)).1 h, hr⟩)
    · exact Or.inr (Or.inr (Or.inl
        ⟨(serviceOf_eq_other settings "deepseek" (by decide) (by decide)).1 h, hr⟩))
    · exact Or.inr (Or.inr (Or.inr (Or.inl
        ⟨(serviceOf_eq_other settings "deepl" (by decide) (by decide)).1 h, hr⟩)))
    · exact Or.inr (Or.inr (Or.inr (Or.inr
        ⟨(serviceOf_eq_other settings "custom" (by decide) (by decide)).1 h, hr⟩)))
  · rintro ⟨settings, result, hs, hkey, hsel, hrest⟩
    rcases hsel with ⟨h, hr⟩ | ⟨h, hr⟩ | ⟨h, hr⟩ | ⟨h, hr⟩ | ⟨h, hr⟩
    · exact ⟨settings, _, result, hs, hkey,
        (dispatch_eq_some_iff net msg settings _ _).2
          (Or.inl ⟨(serviceOf_eq_openai settings).2 h, rfl⟩), hr, hrest⟩
    · exact ⟨settings, _, result, hs, hkey,
        (dispatch_eq_some_iff net msg settings _ _).2
          (Or.inr (Or.inl
            ⟨(serviceOf_eq_other settings "gemini" (by decide) (by decide)).2 h, rfl⟩)),
        hr, hrest⟩
    · exact ⟨settings, _, result, hs, hkey,
        (dispatch_eq_some_iff net msg settings _ _).2
          (Or.inr (Or.inr (Or.inl
            ⟨(serviceOf_eq_other settings "deepseek" (by decide) (by decide)).2 h, rfl⟩))),
        hr, hrest⟩
    · exact ⟨settings, _, result, hs, hkey,
        (dispatch_eq_some_iff net msg settings _ _).2
          (Or.inr (Or.inr (Or.inr (Or.inl
            ⟨(serviceOf_eq_other settings "deepl" (by decide) (by decide)).2 h, rfl⟩)))),
        hr, hrest⟩
    · exact ⟨settings, _, result, hs, hkey,
        (dispatch_eq_some_iff net msg settings _ _).2
          (Or.inr (Or.inr (Or.inr (Or.inr
            ⟨(serviceOf_eq_other settings "custom" (by decide) (by decide)).2 h, rfl⟩)))),
        hr, hrest⟩

/-- Witness for C5: with no service stored, the OpenAI adapter is called and its
trimmed completion is returned as a success; with the service `deepl`, the DeepL
adapter is called (the free endpoint refuses, the pro endpoint answers) and its
translation and lower-cased detected language are returned; with the service
`gemini` and a body without candidates, the result is not a success. -/
theorem handleTranslation_success_iff_witness :
    (handleTranslation (.ok (settingsFor .undefined .undefined))
        (always (okJson (.obj [("choices", .arr [.obj [("message",
          .obj [("content", .str " halo dunia\n")])]])]))) helloAuto).outcome =
        .ok (.success (.str "halo dunia") (.str "auto")) ∧
      (handleTranslation (.ok (settingsFor (.str "deepl") .undefined)) deeplProOnly
        helloAuto).outcome = .ok (.success (.str "halo") (.str "en")) ∧
      ¬ (handleTranslation (.ok (settingsFor (.str "gemini") .undefined))
        (always (okJson (.obj []))) helloAuto).outcome =
        .ok (.success (.str "") (.str "auto")) :=
  ⟨(handleTranslation_success_iff (.ok (settingsFor .undefined .undefined))
      (always (okJson (.obj [("choices", .arr [.obj [("message",
        .obj [("content", .str " halo dunia\n")])]])]))) helloAuto
      (.str "halo dunia") (.str "auto")).2
      ⟨settingsFor .undefined .undefined, ⟨.str "halo dunia", .str "auto"⟩, rfl, rfl,
        Or.inl ⟨Or.inl rfl, rfl⟩, by simp, rfl, rfl⟩,
    (handleTranslation_success_iff (.ok (settingsFor (.str "deepl") .undefined)) deeplProOnly
      helloAuto (.str "halo") (.str "en")).2
      ⟨settingsFor (.str "deepl") .undefined, ⟨.str "halo", .str "en"⟩, rfl, rfl,
        Or.inr (Or.inr (Or.inr (Or.inl ⟨rfl, rfl⟩))), by simp, rfl, rfl⟩,
    fun h => by
      obtain ⟨_, result, _, _, _, hne, ht, _⟩ :=
        (handleTranslation_success_iff (.ok (settingsFor (.str "gemini") .undefined))
          (always (okJson (.obj []))) helloAuto (.str "") (.str "auto")).1 h
      exact hne ht.symm⟩

/-! ### DeepL -/

/-- C6: when the primary attempt fails, by a non-success status or by a transport
error, the outcome of `translateWithDeepL` is that of the secondary attempt: the
result built from the secondary body `data` when the secondary status is a
success, and otherwise the secondary error, be it the error made from the
secondary error body and status, the transport error of the secondary `fetch`, or
the rejection of the secondary `response.json()`. The generic
`DeepL translation failed` is never thrown here, an error having been captured. -/
theorem translateWithDeepL_fallback (net : Net) (text sourceLang targetLang : String)
    (apiKey : JVal)
    (hprimary :
      (∃ e1, net [] (deeplPrimary text sourceLang targetLang apiKey) = .error e1) ∨
      (∃ r1, net [] (deeplPrimary text sourceLang targetLang apiKey) = .ok r1 ∧ r1.ok = false)) :
    (∀ r2 data,
        net [deeplPrimary text sourceLang targetLang apiKey]
          (deeplSecondary text sourceLang targetLang apiKey) = .ok r2 →
        r2.ok = true → r2.json = .ok data →
        (translateWithDeepL net text sourceLang targetLang apiKey).outcome =
          deeplExtract data sourceLang) ∧
      (∀ r2,
        net [deeplPrimary text sourceLang targetLang apiKey]
          (deeplSecondary text sourceLang targetLang apiKey) = .ok r2 →
        r2.ok = false →
        (translateWithDeepL net text sourceLang targetLang apiKey).outcome =
          .error (deeplStatusError r2)) ∧
      (∀ e2,
        net [deeplPrimary text sourceLang targetLang apiKey]
          (deeplSecondary text sourceLang targetLang apiKey) = .error e2 →
        (translateWithDeepL net text sourceLang targetLang apiKey).outcome = .error e2) ∧
      (∀ r2 e2,
        net [deeplPrimary text sourceLang targetLang apiKey]
          (deeplSecondary text sourceLang targetLang apiKey) = .ok r2 →
        r2.ok = true → r2.json = .error e2 →
        (translateWithDeepL net text sourceLang targetLang apiKey).outcome = .error e2) := by
  have h1 : ∃ e1, deeplAttempt (net [] (deeplPrimary text sourceLang targetLang apiKey))
      sourceLang = .error e1 := by
    rcases hprimary with ⟨e1, h⟩ | ⟨r1, h, hstatus⟩
    · exact ⟨e1, by simp [deeplAttempt, h]⟩
    · exact ⟨deeplStatusError r1, by simp [deeplAttempt, h, hstatus]⟩
  obtain ⟨e1, h1⟩ := h1
  rw [translateWithDeepL_eq, h1]
  refine ⟨?_, ?_, ?_, ?_⟩
  · intro r2 data h2 hok hjson
    simp [deeplAttempt, h2, hok, hjson]
  · intro r2 h2 hok
    simp [deeplAttempt, h2, hok]
  · intro e2 h2
    simp [deeplAttempt, h2]
  · intro r2 e2 h2 hok hjson
    simp [deeplAttempt, h2, hok, hjson]

/-- Witness for C6: the free endpoint answers 403, the pro endpoint a translation. -/
theorem translateWithDeepL_fallback_witness :
    ((∃ e1, deeplProOnly [] (deeplPrimary "hello" "auto" "id" (.str "k")) = .error e1) ∨
      (∃ r1, deeplProOnly [] (deeplPrimary "hello" "auto" "id" (.str "k")) = .ok r1 ∧
        r1.ok = false)) ∧
      (translateWithDeepL deeplProOnly "hello" "auto" "id" (.str "k")).outcome =
        .ok { translation := .str "halo", detectedLang := .str "en" } :=
  ⟨Or.inr ⟨_, rfl, rfl⟩,
    (translateWithDeepL_fallback deeplProOnly "hello" "auto" "id" (.str "k")
      (Or.inr ⟨_, rfl, rfl⟩)).1 _ _ rfl rfl rfl⟩

/-- C7, as stated, fails: the primary endpoint answers with the success status 200
and a body that `response.json()` cannot parse; the rejection is caught by the
`catch` of the loop and the secondary endpoint is requested. -/
theorem translateWithDeepL_second_request_after_success_status :
    (∃ r1, deeplFreeGarbled [] (deeplPrimary "hello" "auto" "id" (.str "k")) = .ok r1 ∧
        r1.ok = true) ∧
      (translateWithDeepL deeplFreeGarbled "hello" "auto" "id" (.str "k")).requests =
        [deeplPrimary "hello" "auto" "id" (.str "k"),
          deeplSecondary "hello" "auto" "id" (.str "k")] :=
  ⟨⟨_, rfl, rfl⟩, rfl⟩

/-- C7, amended: `translateWithDeepL` issues the primary request alone, or the
primary request followed by the secondary one, and nothing else. The
secondary endpoint is requested if and only if the primary attempt returned no result: the
primary `fetch` rejected, or its status was not a success, or its status was a
success and reading the body threw (`response.json()` rejected, or building the
result from the parsed body raised an exception). -/
theorem translateWithDeepL_requests (net : Net) (text sourceLang targetLang : String)
    (apiKey : JVal) :
    ((translateWithDeepL net text sourceLang targetLang apiKey).requests =
        [deeplPrimary text sourceLang targetLang apiKey] ∨
      (translateWithDeepL net text sourceLang targetLang apiKey).requests =
        [deeplPrimary text sourceLang targetLang apiKey,
          deeplSecondary text sourceLang targetLang apiKey]) ∧
    ((translateWithDeepL net text sourceLang targetLang apiKey).requests =
        [deeplPrimary text sourceLang targetLang apiKey,
          deeplSecondary text sourceLang targetLang apiKey] ↔
      ((∃ e, net [] (deeplPrimary text sourceLang targetLang apiKey) = .error e) ∨
        (∃ r1, net [] (deeplPrimary text sourceLang targetLang apiKey) = .ok r1 ∧
          (r1.ok = false ∨
            (r1.ok = true ∧
              ((∃ e, r1.json = .error e) ∨
                ∃ data e, r1.json = .ok data ∧ deeplExtract data sourceLang = .error e)))))) := by
  rw [translateWithDeepL_eq]
  cases hnet : net [] (deeplPrimary text sourceLang targetLang apiKey) with
  | error e => simp [deeplAttempt]
  | ok r1 =>
    by_cases hok : r1.ok = true
    · cases hj : r1.json with
      | error e => simp [deeplAttempt, hok, hj]
      | ok data =>
        cases hx : deeplExtract data sourceLang with
        | error e => simp [deeplAttempt, hok, hj, hx]
        | ok result => simp [deeplAttempt, hok, hj, hx]
    · simp [deeplAttempt, hok]

/-! ### Requests and responses of the adapters -/

/-- C8, as stated, fails for the custom adapter: with `sourceLang = 'auto'` its
request body carries the literal `auto` under `source_lang` and under `source`. -/
theorem translateWithCustom_sends_auto :
    (translateWithCustom offline "hello" "auto" "id" (.str "k")
        (.str "https://example.test/t")).requests.map Request.body =
      [.json (.obj [("text", .str "hello"), ("source_lang", .str "auto"), ("target_lang", .str "id"),
        ("q", .str "hello"), ("source", .str "auto"), ("target", .str "id")])] :=
  rfl

/-- C8, amended: with `sourceLang = 'auto'`, the OpenAI, DeepSeek and Gemini
requests name the source language only through the instruction
`the source language (auto-detect it)` in the prompt, and every DeepL request
has the form parameters `text` and `target_lang` only, `source_lang` being omitted.
The custom adapter sends `sourceLang` as it is: its body carries `auto` under
`source_lang` and `source`. -/
theorem auto_source_language (net : Net) (text targetLang : String) (apiKey endpoint : JVal) :
    (translateWithOpenAI net text "auto" targetLang apiKey).requests.map Request.body =
        [.json (.obj [
          ("model", .str "gpt-4o-mini"),
          ("messages", .arr [
            .obj [("role", .str "system"),
                  ("content", .str ("You are a translator. Translate the given text from " ++
                    "the source language (auto-detect it)" ++ " to " ++ getLanguageName targetLang ++
                    ". Only respond with the translation, nothing else. Preserve the original formatting and line breaks."))],
            .obj [("role", .str "user"), ("content", .str text)]]),
          ("temperature", .num "0.3"),
          ("max_tokens", .num "2000")])] ∧
      (translateWithDeepSeek net text "auto" targetLang apiKey).requests.map Request.body =
        [.json (.obj [
          ("model", .str "deepseek-chat"),
          ("messages", .arr [
            .obj [("role", .str "system"),
                  ("content", .str ("You are a translator. Translate the given text from " ++
                    "the source language (auto-detect it)" ++ " to " ++ getLanguageName targetLang ++
                    ". Only respond with the translation, nothing else. Preserve the original formatting and line breaks."))],
            .obj [("role", .str "user"), ("content", .str text)]]),
          ("temperature", .num "0.3"),
          ("max_tokens", .num "2000")])] ∧
      (translateWithGemini net text "auto" targetLang apiKey).requests.map Request.body =
        [.json (.obj [
          ("contents", .arr [.obj [("parts", .arr [.obj [("text",
            .str ("Translate the following text from " ++ "the source language (auto-detect it)" ++
              " to " ++ getLanguageName targetLang ++
              ". Only respond with the translation, nothing else. Preserve the original formatting and line breaks.\n\nText to translate:\n" ++
              text))]])]]),
          ("generationConfig", .obj [("temperature", .num "0.3"), ("maxOutputTokens", .num "2000")])])] ∧
      (∀ request ∈ (translateWithDeepL net text "auto" targetLang apiKey).requests,
        request.body = .form [("text", text), ("target_lang", toUpperCase targetLang)]) ∧
      (translateWithCustom net text "auto" targetLang apiKey endpoint).requests.map Request.body =
        if endpoint.truthy then
          [.json (.obj [("text", .str text), ("source_lang", .str "auto"),
            ("target_lang", .str targetLang), ("q", .str text), ("source", .str "auto"),
            ("target", .str targetLang)])]
        else [] := by
  refine ⟨rfl, rfl, rfl, ?_, ?_⟩
  · intro request hmem
    have hbody : ∀ baseUrl, (deeplRequest baseUrl text "auto" targetLang apiKey).body =
        .form [("text", text), ("target_lang", toUpperCase targetLang)] := by
      intro baseUrl
      simp [deeplRequest, deeplParams, deeplSourceLangOf, JVal.truthy]
    rw [translateWithDeepL_eq] at hmem
    split at hmem <;> simp at hmem
    · rw [hmem]; exact hbody _
    · rcases hmem with hmem | hmem <;> rw [hmem] <;> exact hbody _
  · unfold translateWithCustom
    by_cases he : endpoint.truthy = true <;> simp [he, customRequest]

/-- C9, as stated, fails: the value returned is not the candidate itself. For the
body whose `translation` is ` hi ` (with a blank on each side) the first non-empty
candidate is ` hi `, the translation returned is `hi`. -/
theorem translateWithCustom_untrimmed :
    firstNonEmpty (customCandidates (.obj [("translation", .str " hi ")])) = .str " hi " ∧
      (translateWithCustom (always (okJson (.obj [("translation", .str " hi ")]))) "hello" "auto"
          "id" (.str "k") (.str "https://example.test/t")).outcome =
        .ok { translation := .str "hi", detectedLang := .str "auto" } ∧
      JVal.str "hi" ≠ JVal.str " hi " :=
  ⟨rfl, rfl, by simp⟩

/-- C9, amended: on a success-status response whose body parses to a value that is
not `null`, when the first non-empty value `s` of the ordered candidate list is a
string (it is the empty string when no candidate is non-empty),
`translateWithCustom` returns as translation `s` with white space trimmed at
both ends; when that is empty the request ends as the failure
`Empty translation received`, otherwise as a success carrying the trimmed text. -/
theorem translateWithCustom_first_candidate (net : Net) (msg : TranslateMessage)
    (settings : Settings) (response : Response) (data : JVal) (s : String)
    (hservice : settings.service = .str "custom")
    (hkey : settings.apiKey.truthy = true)
    (hendpoint : settings.customEndpoint.truthy = true)
    (hnet : net [] (customRequest msg.text msg.sourceLang msg.targetLang settings.apiKey
      settings.customEndpoint) = .ok response)
    (hstatus : response.ok = true)
    (hjson : response.json = .ok data)
    (hdata : data.isNullish = false)
    (hfirst : firstNonEmpty (customCandidates data) = .str s) :
    (translateWithCustom net msg.text msg.sourceLang msg.targetLang settings.apiKey
        settings.customEndpoint).outcome.map AdapterResult.translation = .ok (.str (trim s)) ∧
      (handleTranslation (.ok settings) net msg).outcome =
        if trim s = "" then .ok (.failure "Empty translation received")
        else .ok (.success (.str (trim s))
          (((data.prop "detected_lang").or (data.prop "detectedLanguage")).or
            (.str msg.sourceLang))) := by
  have hrun : (translateWithCustom net msg.text msg.sourceLang msg.targetLang settings.apiKey
      settings.customEndpoint).outcome =
      .ok { translation := .str (trim s)
            detectedLang := ((data.prop "detected_lang").or (data.prop "detectedLanguage")).or
              (.str msg.sourceLang) } := by
    simp [translateWithCustom, hendpoint, hnet, hstatus, hjson, customExtract,
      customTranslation_eq hdata, hfirst, callTrim, getProp, hdata, bind, Except.bind, pure,
      Except.pure]
  refine ⟨by rw [hrun]; rfl, ?_⟩
  have hsvc : serviceOf settings = .str "custom" := by
    simp [serviceOf, hservice, JVal.or, JVal.truthy]
  have hd : dispatch net msg settings (.str "custom") =
      some (translateWithCustom net msg.text msg.sourceLang msg.targetLang settings.apiKey
        settings.customEndpoint) := by
    simp [dispatch, JVal.strictEq]
  by_cases ht : trim s = ""
  · have htr : (JVal.str (trim s)).truthy = false := by simp [JVal.truthy, ht]
    rw [if_pos ht]
    simp [handleTranslation, handleTranslationTry, hkey, hsvc, hd, hrun, htr]
  · have htr : (JVal.str (trim s)).truthy = true := by simp [JVal.truthy, ht]
    rw [if_neg ht]
    simp [handleTranslation, handleTranslationTry, hkey, hsvc, hd, hrun, htr]

/-- Witness for C9 amended: `result` is empty, `text` is the first non-empty
candidate, and it is trimmed. -/
theorem translateWithCustom_first_candidate_witness :
    (handleTranslation (.ok (settingsFor (.str "custom") (.str "https://example.test/t")))
        (always (okJson (.obj [("result", .str ""), ("text", .str " halo\n"),
          ("data", .obj [("translation", .str "other")])]))) helloAuto).outcome =
      .ok (.success (.str "halo") (.str "auto")) :=
  (translateWithCustom_first_candidate
    (always (okJson (.obj [("result", .str ""), ("text", .str " halo\n"),
      ("data", .obj [("translation", .str "other")])]))) helloAuto
    (settingsFor (.str "custom") (.str "https://example.test/t"))
    (okJson (.obj [("result", .str ""), ("text", .str " halo\n"),
      ("data", .obj [("translation", .str "other")])]))
    (.obj [("result", .str ""), ("text", .str " halo\n"),
      ("data", .obj [("translation", .str "other")])]) " halo\n"
    rfl rfl rfl rfl rfl rfl rfl rfl).2

/-- C10, as stated, fails for the custom adapter: it never parses the error body
for a message and never throws exactly `Custom API error: <status>`; the message is
always the status followed by ` - ` and the first 100 characters of the body text. -/
theorem custom_status_error_counterexample :
    (Response.mk 500 (.error ⟨"Unexpected token"⟩) (.ok "oops")).ok = false ∧
      (translateWithCustom (always ⟨500, .error ⟨"Unexpected token"⟩, .ok "oops"⟩) "hello" "auto"
          "id" (.str "k") (.str "https://example.test/t")).outcome =
        .error ⟨"Custom API error: 500 - oops"⟩ ∧
      (translateWithCustom
          (always ⟨429, .ok (.obj [("error", .obj [("message", .str "quota exceeded")])]),
            .ok "slow down"⟩) "hello" "auto" "id" (.str "k")
          (.str "https://example.test/t")).outcome =
        .error ⟨"Custom API error: 429 - slow down"⟩ :=
  ⟨rfl, rfl, rfl⟩

/-- C10, amended: for a response with a non-success status whose error body does
not parse (then taken as the empty object) or parses to a value that is not `null`:
OpenAI, Gemini and DeepSeek throw an error whose message is `error.message` of the
body when that is truthy and `<Backend> API error: <status>` otherwise; DeepL, for
the secondary attempt whose error is the one surfaced, does the same with the
top-level `message` of the body and `DeepL API error: <status>`; the custom adapter
throws `Custom API error: <status> - ` followed by the first 100 characters of the
body text. -/
theorem status_error_message (response : Response)
    (hstatus : response.ok = false)
    (hbody : (errorDataOf response).isNullish = false) :
    (∀ (net : Net) (text sourceLang targetLang : String) (apiKey : JVal),
        net [] (openAIRequest text sourceLang targetLang apiKey) = .ok response →
        (translateWithOpenAI net text sourceLang targetLang apiKey).outcome =
          .error ⟨backendMessage (optProp ((errorDataOf response).prop "error") "message")
            "OpenAI" response.status⟩) ∧
      (∀ (net : Net) (text sourceLang targetLang : String) (apiKey : JVal),
        net [] (geminiRequest text sourceLang targetLang apiKey) = .ok response →
        (translateWithGemini net text sourceLang targetLang apiKey).outcome =
          .error ⟨backendMessage (optProp ((errorDataOf response).prop "error") "message")
            "Gemini" response.status⟩) ∧
      (∀ (net : Net) (text sourceLang targetLang : String) (apiKey : JVal),
        net [] (deepSeekRequest text sourceLang targetLang apiKey) = .ok response →
        (translateWithDeepSeek net text sourceLang targetLang apiKey).outcome =
          .error ⟨backendMessage (optProp ((errorDataOf response).prop "error") "message")
            "DeepSeek" response.status⟩) ∧
      (∀ (net : Net) (text sourceLang targetLang : String) (apiKey : JVal) (e1 : JsError),
        deeplAttempt (net [] (deeplPrimary text sourceLang targetLang apiKey)) sourceLang =
          .error e1 →
        net [deeplPrimary text sourceLang targetLang apiKey]
          (deeplSecondary text sourceLang targetLang apiKey) = .ok response →
        (translateWithDeepL net text sourceLang targetLang apiKey).outcome =
          .error ⟨backendMessage ((errorDataOf response).prop "message") "DeepL"
            response.status⟩) ∧
      (∀ (net : Net) (text sourceLang targetLang : String) (apiKey endpoint : JVal)
          (errorText : String),
        endpoint.truthy = true →
        net [] (customRequest text sourceLang targetLang apiKey endpoint) = .ok response →
        response.text = .ok errorText →
        (translateWithCustom net text sourceLang targetLang apiKey endpoint).outcome =
          .error ⟨"Custom API error: " ++ toString response.status ++ " - " ++
            substring0 errorText 100⟩) := by
  have hchat : ∀ backend, thrownOnStatus backend response =
      ⟨backendMessage (optProp ((errorDataOf response).prop "error") "message") backend
        response.status⟩ := by
    intro backend
    simp only [thrownOnStatus, getProp, hbody, Bool.false_eq_true, if_false, newError,
      backendMessage, JVal.or]
    split <;> simp [toStr]
  refine ⟨?_, ?_, ?_, ?_, ?_⟩
  · intro net text sourceLang targetLang apiKey hnet
    simp [translateWithOpenAI, hnet, hstatus, hchat]
  · intro net text sourceLang targetLang apiKey hnet
    simp [translateWithGemini, hnet, hstatus, hchat]
  · intro net text sourceLang targetLang apiKey hnet
    simp [translateWithDeepSeek, hnet, hstatus, hchat]
  · intro net text sourceLang targetLang apiKey e1 h1 hnet
    rw [translateWithDeepL_eq, h1]
    simp only [deeplAttempt, hnet, hstatus, Bool.false_eq_true, if_false, deeplStatusError,
      getProp, hbody, newError, backendMessage, JVal.or]
    split <;> simp [toStr]
  · intro net text sourceLang targetLang apiKey endpoint errorText hend hnet htext
    simp [translateWithCustom, hend, hnet, hstatus, customStatusError, htext]

/-- Witness for C10 amended: a 401 response from OpenAI carrying an error message. -/
theorem status_error_message_witness :
    (Response.mk 401 (.ok (.obj [("error", .obj [("message", .str "Incorrect API key")])]))
        (.ok "")).ok = false ∧
      (translateWithOpenAI
          (always ⟨401, .ok (.obj [("error", .obj [("message", .str "Incorrect API key")])]), .ok ""⟩)
          "hello" "auto" "id" (.str "k")).outcome =
        .error ⟨"Incorrect API key"⟩ :=
  ⟨rfl,
    (status_error_message
      ⟨401, .ok (.obj [("error", .obj [("message", .str "Incorrect API key")])]), .ok ""⟩
      rfl rfl).1
      (always ⟨401, .ok (.obj [("error", .obj [("message", .str "Incorrect API key")])]), .ok ""⟩)
      "hello" "auto" "id" (.str "k") rfl⟩

/-! ### The content script: placement of the popup -/

/-- C11, as stated, fails when the popup cannot be measured: a measured height of 0
is replaced by 80 (`popupRect.height || 80`), so with `top = 20`, `bottom = 40` in a
viewport of height 800 the popup goes below with `arrow-top`, although
`top >= h + 15` holds for the measured `h = 0`. -/
theorem positionPopup_unmeasured_height :
    (Rect.mk 20 40 40 200).top ≥ (0 : ℚ) + 15 ∧
      (positionPopup (popupClasses false) ⟨20, 40, 40, 200⟩ ⟨1000, 800, 0, 0⟩ 300 0).top = 50 ∧
      (positionPopup (popupClasses false) ⟨20, 40, 40, 200⟩ ⟨1000, 800, 0, 0⟩ 300 0).transform =
        "translateY(0)" ∧
      "arrow-top" ∈
        (positionPopup (popupClasses false) ⟨20, 40, 40, 200⟩ ⟨1000, 800, 0, 0⟩ 300 0).classes := by
  refine ⟨by norm_num, ?_, ?_, ?_⟩
  · norm_num [positionPopup, placeVertical, orDefault]
  · norm_num [positionPopup, placeVertical, orDefault]
  · norm_num [positionPopup, placeHorizontal, placeVertical, orDefault, popupClasses]
    decide

/-- C11, amended: with `h` the measured height of the popup, or 80 when the
measured height is 0, the popup is placed above the selection
(`popupY = top + scrollY - 10`, shifted up by its height, no `arrow-top`) when
`top >= h + 15`; otherwise it is placed below (`popupY = bottom + scrollY + 10`,
not shifted, class `arrow-top`) when `H - bottom >= h + 15`; otherwise it falls
back to the above placement at `max(h + 10 + scrollY, top + scrollY - 10)`. The
class `arrow-top` is present exactly in the second case. -/
theorem positionPopup_vertical (isDark : Bool) (rect : Rect) (view : Viewport)
    (measuredWidth measuredHeight : ℚ) :
    (rect.top ≥ orDefault measuredHeight 80 + 15 →
      (positionPopup (popupClasses isDark) rect view measuredWidth measuredHeight).top =
          rect.top + view.scrollY - 10 ∧
        (positionPopup (popupClasses isDark) rect view measuredWidth measuredHeight).transform =
          "translateY(-100%)") ∧
    (¬ rect.top ≥ orDefault measuredHeight 80 + 15 →
      view.innerHeight - rect.bottom ≥ orDefault measuredHeight 80 + 15 →
      (positionPopup (popupClasses isDark) rect view measuredWidth measuredHeight).top =
          rect.bottom + view.scrollY + 10 ∧
        (positionPopup (popupClasses isDark) rect view measuredWidth measuredHeight).transform =
          "translateY(0)") ∧
    (¬ rect.top ≥ orDefault measuredHeight 80 + 15 →
      ¬ view.innerHeight - rect.bottom ≥ orDefault measuredHeight 80 + 15 →
      (positionPopup (popupClasses isDark) rect view measuredWidth measuredHeight).top =
          max (orDefault measuredHeight 80 + 10 + view.scrollY) (rect.top + view.scrollY - 10) ∧
        (positionPopup (popupClasses isDark) rect view measuredWidth measuredHeight).transform =
          "translateY(-100%)") ∧
    ("arrow-top" ∈
        (positionPopup (popupClasses isDark) rect view measuredWidth measuredHeight).classes ↔
      ¬ rect.top ≥ orDefault measuredHeight 80 + 15 ∧
        view.innerHeight - rect.bottom ≥ orDefault measuredHeight 80 + 15) := by
  have hfresh := arrowTop_not_mem_popupClasses isDark
  refine ⟨?_, ?_, ?_, ?_⟩
  · intro h1
    simp [positionPopup, placeVertical, h1]
  · intro h1 h2
    simp only [positionPopup, placeVertical]
    rw [if_neg h1, if_pos h2]
    simp
  · intro h1 h2
    simp only [positionPopup, placeVertical]
    rw [if_neg h1, if_neg h2]
    simp
  · simp only [positionPopup, arrowTop_mem_placeHorizontal, placeVertical]
    by_cases h1 : rect.top ≥ orDefault measuredHeight 80 + 15
    · rw [if_pos h1]
      simp [mem_classListRemove, h1]
    · by_cases h2 : view.innerHeight - rect.bottom ≥ orDefault measuredHeight 80 + 15
      · rw [if_neg h1, if_pos h2]
        simp [mem_classListAdd, h1, h2]
      · rw [if_neg h1, if_neg h2]
        simp only [hfresh, false_iff, not_and]
        exact fun _ => h2

/-- Witness for C11 amended, the example of the claim: `top = 5`, `bottom = 25`,
measured height 100, viewport height 800 give the below placement at
`25 + scrollY + 10` with `arrow-top`. -/
theorem positionPopup_vertical_witness :
    (positionPopup (popupClasses false) ⟨5, 25, 40, 200⟩ ⟨1000, 800, 0, 0⟩ 300 100).top = 35 ∧
      (positionPopup (popupClasses false) ⟨5, 25, 40, 200⟩ ⟨1000, 800, 0, 0⟩ 300 100).transform =
        "translateY(0)" ∧
      "arrow-top" ∈
        (positionPopup (popupClasses false) ⟨5, 25, 40, 200⟩ ⟨1000, 800, 0, 0⟩ 300 100).classes := by
  have h := positionPopup_vertical false ⟨5, 25, 40, 200⟩ ⟨1000, 800, 0, 0⟩ 300 100
  have hbelow := h.2.1 (by norm_num [orDefault]) (by norm_num [orDefault])
  refine ⟨?_, hbelow.2, h.2.2.2.2 ⟨by norm_num [orDefault], by norm_num [orDefault]⟩⟩
  rw [hbelow.1]
  norm_num

/-- C12 fails on the code: the left clamp `if (popupX < 10)` compares `popupX` with
10 in document coordinates, without the `window.scrollX` that the right clamp
adds. On a page scrolled by 100 px (`scrollX = 100 >= 0`), for a selection whose
left coordinate is -50, a viewport of width 1000 and a measured popup width of
300 (`w <= W - 20`), neither clamp applies and the final `popupX` is 50: the left
edge of the popup is 50 px left of the viewport edge, where the claim says
`popupX >= scrollX`. The right edge is inside: `50 + 300 <= 100 + 1000 - 10`. -/
theorem positionPopup_left_edge_crossed :
    (0 : ℚ) ≤ (Viewport.mk 1000 800 100 0).scrollX ∧
      (300 : ℚ) ≤ (Viewport.mk 1000 800 100 0).innerWidth - 20 ∧
      (positionPopup (popupClasses false) ⟨100, 120, -50, 150⟩ ⟨1000, 800, 100, 0⟩ 300 80).left = 50 ∧
      ¬ (Viewport.mk 1000 800 100 0).scrollX ≤
        (positionPopup (popupClasses false) ⟨100, 120, -50, 150⟩ ⟨1000, 800, 100, 0⟩ 300 80).left ∧
      (positionPopup (popupClasses false) ⟨100, 120, -50, 150⟩ ⟨1000, 800, 100, 0⟩ 300 80).left +
          300 ≤ (Viewport.mk 1000 800 100 0).scrollX + (Viewport.mk 1000 800 100 0).innerWidth - 10 := by
  norm_num [positionPopup, placeHorizontal, orDefault]

/-! ### The content script: controller -/

/-- C13 fails on the code: `handleMouseUp` clears the pending timer before its
10 ms wait, not when it schedules the new one. Two pointer releases 5 ms apart
both pass the clearing before either has scheduled; at 15 ms two debounce timers
(3 and 4) are pending, `translationTimer` holding only the second; both fire, and
two `TRANSLATE` requests are sent. -/
theorem doubleRelease_two_requests :
    ((run (PageState.initial pageSettings (plainPage "hello world"))
        (doubleRelease.take 7)).timers.map (fun t => (t.id, t.due, t.task.isDebounce))) =
        [(3, 510, true), (4, 515, true)] ∧
      (run (PageState.initial pageSettings (plainPage "hello world"))
        (doubleRelease.take 7)).translationTimer = some 4 ∧
      (run (PageState.initial pageSettings (plainPage "hello world"))
        doubleRelease).sent.map PageMessage.text = ["hello world", "hello world"] := by
  refine ⟨?_, ?_, ?_⟩ <;> decide

/-- C14 fails on the code: `showTranslationPopup` checks only `if (!popup)` after
its `await`, and `popup` is the module variable. When the first popup (3) was
removed and a second one (7) opened for a new selection, the late reply to the
first request (4, for `alpha beta`) is written into popup 7, which was created for
`gamma delta` and whose own request (8) is still in flight. -/
theorem superseded_reply_rendered :
    (run (PageState.initial pageSettings (plainPage "alpha beta"))
        (superseded.take 12)).inFlight.map (fun r => (r.id, r.message.text)) =
        [(4, "alpha beta"), (8, "gamma delta")] ∧
      (run (PageState.initial pageSettings (plainPage "alpha beta"))
        (superseded.take 12)).body.map Node.id = [7] ∧
      (run (PageState.initial pageSettings (plainPage "alpha beta")) superseded).popup = some 7 ∧
      (run (PageState.initial pageSettings (plainPage "alpha beta"))
        superseded).inFlight.map (fun r => (r.id, r.message.text)) = [(8, "gamma delta")] ∧
      (currentPopup (run (PageState.initial pageSettings (plainPage "alpha beta"))
        superseded)).map PopupEl.innerHTML =
        some (createPopupContent
          { loading := false, translation := some "terjemahan alpha", error := none,
            sourceLang := .str "en", targetLang := .str "id" }) :=
  ⟨by decide, by decide, by decide, by decide, rfl⟩

/-- C15 fails on the code in editable mode: `handleTextBoxSelection` checks nothing
after its `await`. With the request (3) in flight, Escape runs `removeModal`, which
finds no modal; when the successful reply arrives the confirmation modal (4) is
shown all the same. In popup mode the same sequence leaves nothing shown: Escape
removes the popup and the reply (to request 4) is dropped. -/
theorem escape_then_reply_shows_modal :
    (run (PageState.initial pageSettings (textBoxPage "hello world"))
        ((escapeThenReply 3).take 6)).inFlight.map (fun r => (r.id, r.message.text)) =
        [(3, "hello world")] ∧
      (run (PageState.initial pageSettings (textBoxPage "hello world"))
        (escapeThenReply 3)).modalOverlay = some 4 ∧
      (findOverlay (run (PageState.initial pageSettings (textBoxPage "hello world"))
        (escapeThenReply 3)) 4).map ModalEl.innerHTML =
        some (modalHtml "hello world" "halo dunia") ∧
      (run (PageState.initial pageSettings (plainPage "hello world"))
        (escapeThenReply 4)).body.map Node.id = [] ∧
      (run (PageState.initial pageSettings (plainPage "hello world"))
        (escapeThenReply 4)).popup = none :=
  ⟨by decide, by decide, rfl, by decide, by decide⟩

/-- C16: once the `sendMessage` call of `handleTextBoxSelection` has settled, a
confirmation modal is appended to the page if and only if a response with
`success` was received; it then shows the selected text and the translation. For
every other outcome (no response, a failure with or without an error string, an
exception) a toast of type `error` with a non-empty message is appended instead
and no modal is shown. Before the call settles nothing is appended. -/
theorem textBoxReply_modal_iff (s : PageState) (text : String) (outcome : SendOutcome) :
    ((∃ el, (textBoxReply s text outcome).body = s.body ++ [.overlay el]) ↔
        ∃ translation detectedLang,
          outcome = .resolved (some (.success translation detectedLang))) ∧
      (∀ translation detectedLang,
        outcome = .resolved (some (.success translation detectedLang)) →
        (textBoxReply s text outcome).body =
            s.body ++ [.overlay ⟨s.nextId, s.page.dark, modalHtml text translation, translation⟩] ∧
          (textBoxReply s text outcome).modalOverlay = some s.nextId) ∧
      ((¬ ∃ translation detectedLang,
          outcome = .resolved (some (.success translation detectedLang))) →
        (∃ message, message ≠ "" ∧
          (textBoxReply s text outcome).body = s.body ++ [.toast ⟨s.nextId, message, "error"⟩]) ∧
          (textBoxReply s text outcome).modalOverlay = s.modalOverlay) ∧
      (handleTextBoxSelection s text).body = (removeModal s).body := by
  have hsucc : ∀ translation detectedLang,
      outcome = .resolved (some (.success translation detectedLang)) →
      (textBoxReply s text outcome).body =
          s.body ++ [.overlay ⟨s.nextId, s.page.dark, modalHtml text translation, translation⟩] ∧
        (textBoxReply s text outcome).modalOverlay = some s.nextId := by
    intro translation detectedLang h
    subst h
    simp [textBoxReply, textBoxError, textBoxTranslation, showConfirmationModal]
  have hfail : (¬ ∃ translation detectedLang,
        outcome = .resolved (some (.success translation detectedLang))) →
      (∃ message, message ≠ "" ∧
        (textBoxReply s text outcome).body = s.body ++ [.toast ⟨s.nextId, message, "error"⟩]) ∧
        (textBoxReply s text outcome).modalOverlay = s.modalOverlay := by
    intro h
    have herr : textBoxError outcome ≠ "" := fun he => h ((textBoxError_eq_empty_iff outcome).1 he)
    refine ⟨⟨textBoxError outcome, herr, ?_⟩, ?_⟩
    · simp [textBoxReply, herr, showToast, setTimeout]
    · simp [textBoxReply, herr, showToast, setTimeout]
  refine ⟨⟨?_, ?_⟩, hsucc, hfail, ?_⟩
  · rintro ⟨el, hel⟩
    by_contra hno
    obtain ⟨⟨message, _, hbody⟩, _⟩ := hfail hno
    rw [hbody] at hel
    have := List.append_cancel_left hel
    simp at this
  · rintro ⟨translation, detectedLang, h⟩
    exact ⟨_, (hsucc translation detectedLang h).1⟩
  · simp [handleTextBoxSelection, sendMessage]

/-- Witness for C16: a failure without an error string gives the toast
`Translation failed`, a success gives the modal. -/
theorem textBoxReply_modal_iff_witness :
    (textBoxReply (PageState.initial pageSettings (textBoxPage "hello world")) "hello world"
        (.resolved (some (.success "halo dunia" (.str "en"))))).body =
        [.overlay ⟨1, false, modalHtml "hello world" "halo dunia", "halo dunia"⟩] ∧
      (textBoxReply (PageState.initial pageSettings (textBoxPage "hello world")) "hello world"
        (.resolved (some (.failure "")))).modalOverlay = none :=
  ⟨((textBoxReply_modal_iff (PageState.initial pageSettings (textBoxPage "hello world"))
      "hello world" (.resolved (some (.success "halo dunia" (.str "en"))))).2.1
      "halo dunia" (.str "en") rfl).1,
    ((textBoxReply_modal_iff (PageState.initial pageSettings (textBoxPage "hello world"))
      "hello world" (.resolved (some (.failure "")))).2.2.1
      (by rintro ⟨_, _, h⟩; cases h)).2⟩

/-- C17 fails on the code: `currentTextBox` is set by the debounce callback and
reset at once by the `removeModal()` that opens `handleTextBoxSelection`, so when
the confirm button of the modal is clicked `replaceTextInTextBox` returns at
`if (!currentTextBox) return`. With the whole value `hello world` of a textarea
selected (offsets 0 and 11) and the translation `halo dunia` shown in the modal,
the click leaves the value and the selection as they were and dispatches no
`input` event; the claim says the value becomes `halo dunia` with the caret at
10, which is what the splice of `replaceTextInTextBox` would compute. -/
theorem confirm_click_replaces_nothing :
    (run (PageState.initial pageSettings (textBoxPage "hello world"))
        (confirmReplace.take 5)).currentTextBox = none ∧
      (findOverlay (run (PageState.initial pageSettings (textBoxPage "hello world"))
        (confirmReplace.take 6)) 4).map ModalEl.translation = some "halo dunia" ∧
      (run (PageState.initial pageSettings (textBoxPage "hello world"))
        (confirmReplace.take 6)).page.elements.map
          (fun e => (e.value, e.selectionStart, e.selectionEnd)) = [("hello world", 0, 11)] ∧
      (run (PageState.initial pageSettings (textBoxPage "hello world"))
        confirmReplace).page.elements.map
          (fun e => (e.value, e.selectionStart, e.selectionEnd)) = [("hello world", 0, 11)] ∧
      (run (PageState.initial pageSettings (textBoxPage "hello world"))
        confirmReplace).effects.length = 0 ∧
      (run (PageState.initial pageSettings (textBoxPage "hello world"))
        confirmReplace).body.map Node.id = [] ∧
      ((replaceInElement ⟨"TEXTAREA", "textarea", false, "hello world", 0, 11⟩ "halo dunia").value,
        (replaceInElement ⟨"TEXTAREA", "textarea", false, "hello world", 0, 11⟩
          "halo dunia").selectionStart) = ("halo dunia", 10) :=
  ⟨by decide, by decide, by decide, by decide, by decide, by decide, by decide⟩

set_option maxRecDepth 100000 in
/-- C18 fails on the code for the language labels: `createPopupContent` interpolates
`langNames[sourceLang] || sourceLang` and the target label into the header without
`escapeHtml`. A source label `<b>` appears as markup in the result, not as
`&lt;b&gt;`, whereas the translation `a<b` of the same call is escaped. -/
theorem createPopupContent_label_unescaped :
    includes
        (createPopupContent
          { loading := false, translation := some "a<b", error := none,
            sourceLang := .str "<b>", targetLang := .str "id" })
        "<span><b></span>" = true ∧
      includes
        (createPopupContent
          { loading := false, translation := some "a<b", error := none,
            sourceLang := .str "<b>", targetLang := .str "id" })
        "&lt;b&gt;" = false ∧
      includes
        (createPopupContent
          { loading := false, translation := some "a<b", error := none,
            sourceLang := .str "<b>", targetLang := .str "id" })
        "<div class=\"ait-translation\">a&lt;b</div>" = true :=
  ⟨by decide, by decide, by decide⟩

/-- C19: for a selection rectangle with `0 <= top <= bottom` and a measured popup
height `h > 0`, whatever `scrollY` is, the top edge of the placed popup, in
viewport coordinates, is at least 5 px below the top of the viewport, and at
least 10 px in the fallback branch; in the above and below branches, when
`bottom` is within the viewport height, the bottom edge of the popup is within
the viewport too. -/
theorem positionPopup_top_edge (isDark : Bool) (rect : Rect) (view : Viewport)
    (measuredWidth h : ℚ) (htop : 0 ≤ rect.top) (hrect : rect.top ≤ rect.bottom) (hh : 0 < h) :
    5 ≤ topEdge (positionPopup (popupClasses isDark) rect view measuredWidth h) view h ∧
      (¬ rect.top ≥ h + 15 → ¬ view.innerHeight - rect.bottom ≥ h + 15 →
        10 ≤ topEdge (positionPopup (popupClasses isDark) rect view measuredWidth h) view h) ∧
      (rect.top ≥ h + 15 ∨ view.innerHeight - rect.bottom ≥ h + 15 →
        rect.bottom ≤ view.innerHeight →
        topEdge (positionPopup (popupClasses isDark) rect view measuredWidth h) view h + h ≤
          view.innerHeight) := by
  have hh0 : h ≠ 0 := ne_of_gt hh
  simp only [positionPopup, orDefault, hh0, if_false, topEdge]
  exact placeVertical_top_edge (popupClasses isDark) rect view h htop hrect

/-- Witness for C19: the selection at `top = 5`, `bottom = 25`, a popup of height
100, the page scrolled by 300. -/
theorem positionPopup_top_edge_witness :
    (0 : ℚ) ≤ (Rect.mk 5 25 40 200).top ∧ (Rect.mk 5 25 40 200).top ≤ (Rect.mk 5 25 40 200).bottom ∧
      (0 : ℚ) < 100 ∧
      5 ≤ topEdge (positionPopup (popupClasses false) ⟨5, 25, 40, 200⟩ ⟨1000, 800, 0, 300⟩ 300 100)
        ⟨1000, 800, 0, 300⟩ 100 :=
  ⟨by norm_num, by norm_num, by norm_num,
    (positionPopup_top_edge false ⟨5, 25, 40, 200⟩ ⟨1000, 800, 0, 300⟩ 300 100 (by norm_num)
      (by norm_num) (by norm_num)).1⟩

end SmartTranslate
